import Mathlib

/-!
Verification development for the snapd install/update planning code
(`overlord/snapstate/target.go`) and the link/unlink backend it drives.

The definitions below are shallow embeddings of the Go sources.  Pure
helper functions become Lean functions; the global snapd state is passed
explicitly; fallible code returns `Except`/`Option`.  Parts of the
repository that are only exercised by the sources' tests (the backend
`LinkSnap`/`UnlinkSnap` family and the task-engine lane cascade) are
modelled from the specification, as indicated on each such definition.
-/

namespace SnapdProof

/-! ## State and lane allocation

Modelled from the spec: the `overlord/state` package is not among the
sources; its lane counter is described in §3 of the spec
(`lastLaneID`: monotonically increasing counter, never reused) and used
by `target.go` through `state.NewLane`. -/

/-- The slice of the global snapd state relevant to lane allocation:
the `lastLaneID` counter. -/
structure StState where
  lastLaneID : Nat
deriving DecidableEq, Repr

/-- Modelled from the spec: `state.NewLane` allocates a fresh lane by
incrementing the monotonically increasing `lastLaneID` counter and
returning the new value (lanes are never reused, and lane 0 is the
"no lane" marker, so fresh lanes are strictly positive). -/
def newLane (st : StState) : StState × Nat :=
  (⟨st.lastLaneID + 1⟩, st.lastLaneID + 1)

/-! ## Options and transactions (`target.go`) -/

/-- `client.TransactionAllSnaps` / `client.TransactionPerSnap`; the empty
string transaction is `unset`. -/
inductive Transaction where
  | unset
  | allSnaps
  | perSnap
deriving DecidableEq, Repr

/-- The fields of snapstate `Flags` that the lane logic reads. -/
structure Flags where
  transaction : Transaction
  lane : Nat
deriving DecidableEq, Repr

/-- The fields of snapstate `Options` that the lane logic reads. -/
structure Options where
  flags : Flags
deriving DecidableEq, Repr

/-- Errors produced by the install planning code of `target.go`. -/
inductive InstallError where
  /-- "cannot specify a lane without setting transaction to all-snaps" -/
  | laneWithoutAllSnaps
deriving DecidableEq, Repr

/-- `Options.setDefaultLane` from `target.go`: rejects a nonzero lane
unless the transaction is "all-snaps", and allocates a fresh shared lane
when the transaction is "all-snaps" and no lane was supplied. -/
def setDefaultLane (opts : Options) (st : StState) :
    Except InstallError (Options × StState) :=
  if opts.flags.transaction ≠ Transaction.allSnaps ∧ opts.flags.lane ≠ 0 then
    .error .laneWithoutAllSnaps
  else if opts.flags.transaction = Transaction.allSnaps ∧ opts.flags.lane = 0 then
    let (st, l) := newLane st
    .ok (⟨⟨opts.flags.transaction, l⟩⟩, st)
  else
    .ok (opts, st)

/-- `generateLane` from `target.go`: for "all-snaps" the (shared) lane
from the options, for "per-snap" a freshly allocated lane, otherwise
lane 0. -/
def generateLane (st : StState) (opts : Options) : StState × Nat :=
  match opts.flags.transaction with
  | .allSnaps => (st, opts.flags.lane)
  | .perSnap => newLane st
  | .unset => (st, 0)

/-- The per-target loop of `InstallWithGoal`: each target's task set is
joined to `generateLane st opts` (one call per target, in order). -/
def joinLanesLoop (opts : Options) : Nat → StState → StState × List Nat
  | 0, st => (st, [])
  | n + 1, st =>
    let (st', l) := generateLane st opts
    let (st'', ls) := joinLanesLoop opts n st'
    (st'', l :: ls)

/-- The lane-relevant skeleton of `InstallWithGoal` from `target.go`:
`setDefaultLane` runs first (before any task is created), and on success
every one of the `n` targets' task sets joins the lane produced by
`generateLane`.  The store/validation plumbing between these two steps
does not touch lanes and is abstracted to the target count `n`. -/
def installWithGoalLanes (n : Nat) (opts : Options) (st : StState) :
    Except InstallError (StState × List Nat) :=
  match setDefaultLane opts st with
  | .error e => .error e
  | .ok (opts, st) => .ok (joinLanesLoop opts n st)

/-! ## Store install goals (`target.go`: `StoreInstallGoal`,
`storeInstallGoal.validateAndPrune`, `storeInstallGoal.toInstall`) -/

/-- The fields of `RevisionOptions` read by `validateRevisionOpts` and
`validateAndPrune`.  An unset revision is `Option.none`. -/
structure RevisionOptions where
  channel : String
  cohortKey : String
  revision : Option Int
  leaveCohort : Bool
deriving DecidableEq, Repr

/-- `StoreSnap` from `target.go`. -/
structure StoreSnap where
  instanceName : String
  components : List String
  revOpts : RevisionOptions
  skipIfPresent : Bool
deriving DecidableEq, Repr

/-- The dedup loop of `StoreInstallGoal`: a `seen` set accumulates the
instance names already kept; later occurrences are skipped. -/
def storeInstallGoalUnique (seen : List String) :
    List StoreSnap → List StoreSnap
  | [] => []
  | sn :: rest =>
    if sn.instanceName ∈ seen then storeInstallGoalUnique seen rest
    else sn :: storeInstallGoalUnique (sn.instanceName :: seen) rest

/-- `StoreInstallGoal` from `target.go`: keeps the first occurrence of
every instance name, in order. -/
def StoreInstallGoal (snaps : List StoreSnap) : List StoreSnap :=
  storeInstallGoalUnique [] snaps

/-- The `snap.SideInfo` field read by `PathUpdateGoal`. -/
structure SideInfo where
  realName : String
deriving DecidableEq, Repr

/-- `PathSnap` from `target.go` (the fields the goal constructors read). -/
structure PathSnap where
  path : String
  instanceName : String
  sideInfo : SideInfo
deriving DecidableEq, Repr

/-- The instance-name defaulting done by `PathUpdateGoal` (and
`PathInstallGoal`): an empty `InstanceName` is replaced by
`SideInfo.RealName`. -/
def pathSnapWithDefaultName (sn : PathSnap) : PathSnap :=
  if sn.instanceName = "" then
    { sn with instanceName := sn.sideInfo.realName }
  else sn

/-- The dedup loop of `PathUpdateGoal`: names are defaulted, then later
occurrences of a name are skipped. -/
def pathUpdateGoalFiltered (seen : List String) :
    List PathSnap → List PathSnap
  | [] => []
  | sn₀ :: rest =>
    let sn := pathSnapWithDefaultName sn₀
    if sn.instanceName ∈ seen then pathUpdateGoalFiltered seen rest
    else sn :: pathUpdateGoalFiltered (sn.instanceName :: seen) rest

/-- `PathUpdateGoal` from `target.go`. -/
def PathUpdateGoal (snaps : List PathSnap) : List PathSnap :=
  pathUpdateGoalFiltered [] snaps

/-- Spec-side rendering of claim C9's description of goal construction:
keep each element whose key has not appeared earlier, preserving the
order of first appearances.  Compared against the `target.go` loops. -/
def keepFirstBy {α : Type} (key : α → String) : List α → List α
  | [] => []
  | x :: xs => x :: keepFirstBy key (xs.filter fun y => key y ≠ key x)
termination_by l => l.length
decreasing_by
  simp only [List.length_cons]
  exact Nat.lt_succ_of_le (List.length_filter_le _ _)

/-- Errors produced by `storeInstallGoal.validateAndPrune` and
`storeInstallGoal.toInstall` (name of the offending snap attached). -/
inductive VErr where
  | expectedOneSnap
  | invalidName (name : String)
  | invalidRevOpts (name : String)
  | alreadyInstalled (name : String)
  | resolveChannelErr (name : String)
  | initValidationSetsErr (name : String)
deriving DecidableEq, Repr

/-- `validateRevisionOpts` from `target.go`: revision and cohort are
mutually exclusive; leaving the cohort clears the provided cohort key.
Returns the (possibly updated) options, or `none` on error. -/
def validateRevisionOpts (o : RevisionOptions) : Option RevisionOptions :=
  if o.cohortKey ≠ "" ∧ o.revision ≠ Option.none then Option.none
  else if o.leaveCohort then some { o with cohortKey := "" }
  else some o

/-- The collaborators `validateAndPrune` calls out to.  `valid` stands
for `snap.ValidateInstanceName`, `installed` for the
`installedSnaps[...]` lookup plus `SnapState.IsInstalled`,
`resolveChannel` for `RevisionOptions.resolveChannel` and
`initValidationSets` for `RevisionOptions.initializeVSets`; all four
live outside `target.go`. -/
structure StoreEnv where
  valid : String → Bool
  installed : String → Bool
  resolveChannel : StoreSnap → Option StoreSnap
  initValidationSets : StoreSnap → Option StoreSnap

/-- The channel defaulting inside `validateAndPrune`: only provide a
default channel ("stable") if neither a channel nor a revision is set. -/
def defaultChannelStable (sn : StoreSnap) : StoreSnap :=
  if sn.revOpts.channel = "" ∧ sn.revOpts.revision = Option.none then
    { sn with revOpts := { sn.revOpts with channel := "stable" } }
  else sn

/-- `storeInstallGoal.validateAndPrune` from `target.go`: validates each
snap in order (name, then revision options), fails with
`alreadyInstalled` on an installed snap unless it is marked
`SkipIfPresent` (in which case the snap is dropped), defaults the
channel to "stable" when neither channel nor revision is set, and runs
channel resolution and validation-set initialisation on the kept
snaps. -/
def validateAndPrune (env : StoreEnv) :
    List StoreSnap → Except VErr (List StoreSnap)
  | [] => .ok []
  | sn :: rest =>
    if env.valid sn.instanceName = false then
      .error (.invalidName sn.instanceName)
    else
      match validateRevisionOpts sn.revOpts with
      | Option.none => .error (.invalidRevOpts sn.instanceName)
      | some ro =>
        let sn := { sn with revOpts := ro }
        if env.installed sn.instanceName then
          if sn.skipIfPresent then validateAndPrune env rest
          else .error (.alreadyInstalled sn.instanceName)
        else
          let sn := defaultChannelStable sn
          match env.resolveChannel sn with
          | Option.none => .error (.resolveChannelErr sn.instanceName)
          | some sn =>
            match env.initValidationSets sn with
            | Option.none => .error (.initValidationSetsErr sn.instanceName)
            | some sn =>
              match validateAndPrune env rest with
              | .error e => .error e
              | .ok rest' => .ok (sn :: rest')

/-- Result of `storeInstallGoal.toInstall`: on success, the pruned snaps
for which store actions were sent; `storeContacted` records whether
`sendInstallActions` (the store round trip) was reached. -/
structure ToInstallOutcome where
  result : Except VErr (List StoreSnap)
  storeContacted : Bool
deriving Repr

/-- `storeInstallGoal.toInstall` from `target.go`, up to the store round
trip: the `ExpectOneSnap` guard, then `validateAndPrune`; only when that
succeeds is `sendInstallActions` reached (the store interaction itself
and the construction of targets from its results are outside this
model, so the success value is the list of snaps sent). -/
def toInstall (env : StoreEnv) (expectOne : Bool)
    (snaps : List StoreSnap) : ToInstallOutcome :=
  if expectOne ∧ snaps.length ≠ 1 then ⟨.error .expectedOneSnap, false⟩
  else
    match validateAndPrune env snaps with
    | .error e => ⟨.error e, false⟩
    | .ok pruned => ⟨.ok pruned, true⟩

/-! ## The link/unlink backend

Modelled from the spec: the implementation of
`backend.LinkSnap` / `backend.UnlinkSnap` /
`backend.LinkComponent` / `backend.UnlinkComponent` is not among the
sources — only its test suite is.  The model below follows the spec's
§4.4/§8 requirements (idempotent, detect-and-resume link/unlink that
checks "is the symlink already correct?" before acting, cleanup of
partial work on failure) with the observable behaviour fixed by the
backend link tests in the sources: which wrapper files a snap generates,
the cleanup performed when a step fails, the special treatment of the
snapd snap's units when it is not a first install, the run-inhibition
lock handling, and the state unlock/relock protocol. -/

/-- A location in the filesystem areas the link backend touches: the
generated-wrapper directories, the `current` symlinks for the mount and
data directories, the data directories themselves, the run-inhibition
files, and component symlinks. -/
inductive Loc where
  | bin (file : String)
  | desktopFile (file : String)
  | icon (file : String)
  | sysUnit (file : String)
  | userUnit (file : String)
  | dbusSys (file : String)
  | dbusSes (file : String)
  | mountCur (snapName : String)
  | dataCur (snapName : String)
  | dataDir (p : String)
  | inhibitLock (snapName : String)
  | inhibitInfo (snapName : String)
  | comp (p : String)
deriving DecidableEq, Repr

/-- A filesystem state: contents by location (`none` = absent). -/
def Fs : Type := Loc → Option String

/-- Write one location. -/
def fwrite (fs : Fs) (l : Loc) (v : String) : Fs :=
  fun l' => if l' = l then some v else fs l'

/-- Remove one location. -/
def fremove (fs : Fs) (l : Loc) : Fs :=
  fun l' => if l' = l then Option.none else fs l'

/-- Write every location of a list, with contents given by `f`. -/
def fwriteFn (fs : Fs) (f : Loc → String) : List Loc → Fs
  | [] => fs
  | l :: ls => fwriteFn (fwrite fs l (f l)) f ls

/-- Remove every location of a list. -/
def fremoveAll (fs : Fs) : List Loc → Fs
  | [] => fs
  | l :: ls => fremoveAll (fremove fs l) ls

/-- Restore the listed locations to their contents in `src`, keeping
`fs` elsewhere. -/
def frestore (src : Fs) (ls : List Loc) (fs : Fs) : Fs :=
  fun l => if l ∈ ls then src l else fs l

/-- The empty filesystem. -/
def emptyFs : Fs := fun _ => Option.none

/-- One application of a snap, as declared in its `snap.yaml`: a plain
app gets a binary wrapper; a system or user daemon gets a unit file; a
D-Bus `activates-on` slot gets an activation file on the corresponding
bus. -/
structure App where
  name : String
  daemon : Bool
  userDaemon : Bool
  dbusSystemActivation : Bool
  dbusSessionActivation : Bool
deriving DecidableEq, Repr

/-- The slice of `snap.Info` the link backend reads.  For the snapd
snap (`isSnapd`), the unit files shipped in the snap (system units,
user units, D-Bus session activation files) are installed verbatim by
name. -/
structure SnapInfo where
  name : String
  rev : Option Int
  apps : List App
  desktopFiles : List String
  iconFiles : List String
  isSnapd : Bool
  snapdSysUnits : List String
  snapdUserUnits : List String
  snapdSessionServices : List String
deriving DecidableEq, Repr

/-- Binary-wrapper locations generated for a snap: one per
non-daemon app. -/
def binLocs (i : SnapInfo) : List Loc :=
  (i.apps.filter fun a => !a.daemon && !a.userDaemon).map
    fun a => .bin (i.name ++ "." ++ a.name)

/-- Desktop-file locations installed for a snap. -/
def desktopLocs (i : SnapInfo) : List Loc :=
  i.desktopFiles.map fun f => .desktopFile f

/-- Icon locations installed for a snap. -/
def iconLocs (i : SnapInfo) : List Loc :=
  i.iconFiles.map fun f => .icon f

/-- System unit locations generated for a snap: one per system daemon,
plus — for the snapd snap — its shipped system units and the
`usr-lib-snapd.mount` unit. -/
def sysUnitLocs (i : SnapInfo) : List Loc :=
  ((i.apps.filter fun a => a.daemon && !a.userDaemon).map
    fun a => Loc.sysUnit ("snap." ++ i.name ++ "." ++ a.name ++ ".service")) ++
  (if i.isSnapd then
    i.snapdSysUnits.map Loc.sysUnit ++ [Loc.sysUnit "usr-lib-snapd.mount"]
  else [])

/-- User unit locations generated for a snap: one per user daemon, plus
the snapd snap's shipped user units. -/
def userUnitLocs (i : SnapInfo) : List Loc :=
  ((i.apps.filter fun a => a.userDaemon).map
    fun a => Loc.userUnit ("snap." ++ i.name ++ "." ++ a.name ++ ".service")) ++
  (if i.isSnapd then i.snapdUserUnits.map Loc.userUnit else [])

/-- D-Bus system-bus activation file locations generated for a snap. -/
def dbusSysLocs (i : SnapInfo) : List Loc :=
  (i.apps.filter fun a => a.dbusSystemActivation).map
    fun a => Loc.dbusSys ("snap." ++ i.name ++ "." ++ a.name ++ ".service")

/-- D-Bus session-bus activation file locations generated for a snap,
plus the snapd snap's shipped session activation files. -/
def dbusSesLocs (i : SnapInfo) : List Loc :=
  ((i.apps.filter fun a => a.dbusSessionActivation).map
    fun a => Loc.dbusSes ("snap." ++ i.name ++ "." ++ a.name ++ ".service")) ++
  (if i.isSnapd then i.snapdSessionServices.map Loc.dbusSes else [])

/-- All unit-like generated locations (system units, user units and
D-Bus activation files) — the group the snapd-snap exception keeps. -/
def unitLocs (i : SnapInfo) : List Loc :=
  sysUnitLocs i ++ userUnitLocs i ++ dbusSysLocs i ++ dbusSesLocs i

/-- All generated wrapper locations of a snap. -/
def wrapperLocs (i : SnapInfo) : List Loc :=
  binLocs i ++ desktopLocs i ++ iconLocs i ++ unitLocs i

/-- The versioned data directory path of a snap revision. -/
def dataDirPath (i : SnapInfo) (r : Int) : String :=
  i.name ++ "/" ++ toString r

/-- Contents written by linking revision `r` of a snap (the generated
wrappers embed the revision's mount directory). -/
def linkVal (i : SnapInfo) (r : Int) : Loc → String :=
  fun _ => i.name ++ "@" ++ toString r

/-- The fields of `backend.LinkContext` the model reads.
`hasStateUnlocker` stands for `StateUnlocker != nil`. -/
structure LinkCtx where
  hasStateUnlocker : Bool
  firstInstall : Bool
  runInhibitHint : Option String
  skipBinaries : Bool
deriving DecidableEq, Repr

/-- Where an injected external failure hits `LinkSnap` (`ok` = no
failure): an unwritable binaries / desktop-files / services / D-Bus
directory, a failing systemctl call, or an unwritable snap mount
directory when the `current` symlink is made. -/
inductive FailPoint where
  | ok
  | atBins
  | atDesktop
  | atServices
  | atDbusSys
  | atDbusSes
  | atSystemctl
  | atSymlink
deriving DecidableEq, Repr

/-- Errors returned by the modelled `LinkSnap`. -/
inductive LinkErr where
  /-- "internal error: LinkContext.StateUnlocker cannot be nil" -/
  | nilStateUnlocker
  /-- "cannot link snap with unset revision" -/
  | unsetRevision
  | ioFailure (p : FailPoint)
deriving DecidableEq, Repr

/-- Errors returned by the modelled `UnlinkSnap`. -/
inductive UnlinkErr where
  /-- "internal error: LinkContext.StateUnlocker cannot be nil if
  LinkContext.RunInhibitHint is set" -/
  | inhibitHintNilUnlocker
deriving DecidableEq, Repr

/-- Outcome of a `LinkSnap` invocation: error (if any), resulting
filesystem, and how often the state unlocker and the relock closure it
returned were called. -/
structure LinkOutcome where
  err : Option LinkErr
  fs : Fs
  unlockCalls : Nat
  relockCalls : Nat

/-- Outcome of an `UnlinkSnap` invocation. -/
structure UnlinkOutcome where
  err : Option UnlinkErr
  fs : Fs
  unlockCalls : Nat
  relockCalls : Nat

/-- The locations `LinkSnap`'s on-failure cleanup restores to their
previous contents: the two `current` symlinks and the data directory
created for the revision being linked. -/
def restoreLocs (i : SnapInfo) (r : Int) : List Loc :=
  [.mountCur i.name, .dataCur i.name, .dataDir (dataDirPath i r)]

/-- Modelled from the spec: the cleanup `LinkSnap` performs when a step
fails (backend implementation not among the sources; behaviour fixed by
the `linkCleanupSuite` tests): the `current` symlinks and data
directory are restored to their previous state and the generated
wrappers are removed — except that for a snapd snap that is not a first
install the generated unit files are kept, since removing them would
take down the running snapd. -/
def cleanupFail (i : SnapInfo) (ctx : LinkCtx) (r : Int)
    (fs₀ fsMid : Fs) : Fs :=
  if i.isSnapd && !ctx.firstInstall then
    fremoveAll (frestore fs₀ (restoreLocs i r) fsMid)
      (binLocs i ++ desktopLocs i ++ iconLocs i)
  else
    fremoveAll
      (fremoveAll (frestore fs₀ (restoreLocs i r) fsMid)
        (binLocs i ++ desktopLocs i ++ iconLocs i))
      (unitLocs i)

/-- Modelled from the spec: `backend.LinkSnap` (implementation not among
the sources; behaviour fixed by §4.4/§8 of the spec and the backend
link tests).  After checking the state unlocker and the revision, it
generates the snap's wrappers (binaries; desktop files and icons;
system and user units; D-Bus activation files), creates the data
directory and the `current` data symlink, then the `current` mount
symlink, and finally — under a single unlock/relock cycle of the state
lock — removes the snap's run-inhibition lock.  Every write is an
overwrite of the target location, so a repeated run redoes the same
writes.  A failing step triggers `cleanupFail` on what was already
done. -/
def linkSnap (i : SnapInfo) (ctx : LinkCtx) (fail : FailPoint)
    (fs₀ : Fs) : LinkOutcome :=
  if ¬ ctx.hasStateUnlocker then ⟨some .nilStateUnlocker, fs₀, 0, 0⟩
  else
    match i.rev with
    | Option.none => ⟨some .unsetRevision, fs₀, 0, 0⟩
    | some r =>
      let v := linkVal i r
      if fail = .atBins then
        ⟨some (.ioFailure .atBins), cleanupFail i ctx r fs₀ fs₀, 1, 1⟩
      else
        let fs1 := fwriteFn fs₀ v (binLocs i)
        if fail = .atDesktop then
          ⟨some (.ioFailure .atDesktop), cleanupFail i ctx r fs₀ fs1, 1, 1⟩
        else
          let fs2 := fwriteFn fs1 v (desktopLocs i ++ iconLocs i)
          if fail = .atServices then
            ⟨some (.ioFailure .atServices), cleanupFail i ctx r fs₀ fs2, 1, 1⟩
          else
            let fs3 := fwriteFn fs2 v (sysUnitLocs i ++ userUnitLocs i)
            if fail = .atDbusSys then
              ⟨some (.ioFailure .atDbusSys), cleanupFail i ctx r fs₀ fs3, 1, 1⟩
            else
              let fs4 := fwriteFn fs3 v (dbusSysLocs i)
              if fail = .atDbusSes then
                ⟨some (.ioFailure .atDbusSes), cleanupFail i ctx r fs₀ fs4, 1, 1⟩
              else
                let fs5 := fwriteFn fs4 v (dbusSesLocs i)
                if fail = .atSystemctl then
                  ⟨some (.ioFailure .atSystemctl), cleanupFail i ctx r fs₀ fs5, 1, 1⟩
                else
                  let fs6 := fwrite (fwrite fs5 (.dataDir (dataDirPath i r)) "dir")
                    (.dataCur i.name) (toString r)
                  if fail = .atSymlink then
                    ⟨some (.ioFailure .atSymlink), cleanupFail i ctx r fs₀ fs6, 1, 1⟩
                  else
                    let fs7 := fwrite fs6 (.mountCur i.name) (toString r)
                    let fs8 := fremove (fremove fs7 (.inhibitLock i.name))
                      (.inhibitInfo i.name)
                    ⟨Option.none, fs8, 1, 1⟩

/-- Modelled from the spec: the filesystem effect of `backend.UnlinkSnap`
(implementation not among the sources; behaviour fixed by the backend
link tests): the generated binaries, desktop files and icons are removed
(unless `SkipBinaries`), the generated unit files are removed — except
for a snapd snap that is not a first install, whose units are left in
place — and the `current` mount and data symlinks are removed.  All
removals are no-ops on locations that are already absent. -/
def unlinkFsChange (i : SnapInfo) (ctx : LinkCtx) (fs₀ : Fs) : Fs :=
  let fs1 :=
    if ctx.skipBinaries then fs₀
    else fremoveAll fs₀ (binLocs i ++ desktopLocs i ++ iconLocs i)
  let fs2 :=
    if i.isSnapd && !ctx.firstInstall then fs1
    else fremoveAll fs1 (unitLocs i)
  fremove (fremove fs2 (.mountCur i.name)) (.dataCur i.name)

/-- Modelled from the spec: `backend.UnlinkSnap` (implementation not
among the sources; behaviour fixed by the backend link tests).  When a
run-inhibition hint is set, a nil state unlocker is an immediate error;
otherwise the wrappers and symlinks are removed via `unlinkFsChange`,
and — when a hint is set — the snap's run-inhibition lock and inhibit
info (recording the previous revision) are written under a single
unlock/relock cycle. -/
def unlinkSnap (i : SnapInfo) (ctx : LinkCtx) (fs₀ : Fs) : UnlinkOutcome :=
  if ctx.runInhibitHint ≠ Option.none ∧ ¬ ctx.hasStateUnlocker then
    ⟨some .inhibitHintNilUnlocker, fs₀, 0, 0⟩
  else
    let fs := unlinkFsChange i ctx fs₀
    match ctx.runInhibitHint with
    | Option.none => ⟨Option.none, fs, 0, 0⟩
    | some hint =>
      let fs' := fwrite (fwrite fs (.inhibitLock i.name) hint)
        (.inhibitInfo i.name) ("previous " ++ toString (i.rev.getD 0))
      ⟨Option.none, fs', 1, 1⟩

/-- The fields of `snap.ContainerPlaceInfo` the component link backend
reads, together with the snap revision the component is linked under. -/
structure CompPlaceInfo where
  snapName : String
  compName : String
  compRev : Int
  snapRev : Int
deriving DecidableEq, Repr

/-- The component symlink path
`<snap>/components/<snap_rev>/<comp_name>`. -/
def compLinkPath (c : CompPlaceInfo) : String :=
  c.snapName ++ "/components/" ++ toString c.snapRev ++ "/" ++ c.compName

/-- The component symlink target `../mnt/<comp_name>/<comp_rev>`. -/
def compLinkTarget (c : CompPlaceInfo) : String :=
  "../mnt/" ++ c.compName ++ "/" ++ toString c.compRev

/-- Modelled from the spec: `backend.LinkComponent` (implementation not
among the sources; behaviour fixed by the backend link tests): the
component symlink is (re)created atomically, overwriting an existing
symlink. -/
def linkComponent (c : CompPlaceInfo) (fs : Fs) : Fs :=
  fwrite fs (.comp (compLinkPath c)) (compLinkTarget c)

/-- Modelled from the spec: `backend.UnlinkComponent` (implementation
not among the sources; behaviour fixed by the backend link tests): the
component symlink is removed; removing an already-absent symlink
succeeds. -/
def unlinkComponent (c : CompPlaceInfo) (fs : Fs) : Fs :=
  fremove fs (.comp (compLinkPath c))

/-! ## The task-engine undo cascade

Modelled from the spec: the `overlord/state` task runner is not among
the sources; §4.4 step 5 specifies that a fatal task error marks every
task in the failing task's lane(s) for undo, with lane 0 (no explicit
lanes) grouping the tasks that carry no lane tag. -/

/-- A task as seen by the lane cascade: its id and its lanes (empty =
lane 0 only). -/
structure EngineTask where
  id : Nat
  lanes : List Nat
deriving DecidableEq, Repr

/-- The effective lanes of a task: `[0]` when it joined no lane. -/
def EngineTask.effLanes (t : EngineTask) : List Nat :=
  if t.lanes = [] then [0] else t.lanes

/-- Modelled from the spec (§4.4 step 5): the set of tasks of a Change
undone after a fatal error in `failing` — every task sharing a lane
with the failing task. -/
def undoSet (chg : List EngineTask) (failing : EngineTask) :
    List EngineTask :=
  chg.filter fun t => t.effLanes.any fun l => l ∈ failing.effLanes

/-! ## Pointwise characterisation of the filesystem operations -/

theorem fwrite_apply (fs : Fs) (l : Loc) (v : String) (x : Loc) :
    fwrite fs l v x = if x = l then some v else fs x := rfl

theorem fremove_apply (fs : Fs) (l : Loc) (x : Loc) :
    fremove fs l x = if x = l then Option.none else fs x := rfl

theorem frestore_apply (src : Fs) (ls : List Loc) (fs : Fs) (x : Loc) :
    frestore src ls fs x = if x ∈ ls then src x else fs x := rfl

theorem fwriteFn_apply (f : Loc → String) :
    ∀ (ls : List Loc) (fs : Fs) (x : Loc),
      fwriteFn fs f ls x = if x ∈ ls then some (f x) else fs x := by
  intro ls
  induction ls with
  | nil => intro fs x; simp [fwriteFn]
  | cons l ls ih =>
    intro fs x
    rw [fwriteFn, ih]
    by_cases hx : x ∈ ls
    · simp [hx]
    · by_cases he : x = l
      · subst he
        simp [hx, fwrite]
      · simp [hx, he, fwrite]

theorem fremoveAll_apply :
    ∀ (ls : List Loc) (fs : Fs) (x : Loc),
      fremoveAll fs ls x = if x ∈ ls then Option.none else fs x := by
  intro ls
  induction ls with
  | nil => intro fs x; simp [fremoveAll]
  | cons l ls ih =>
    intro fs x
    rw [fremoveAll, ih]
    by_cases hx : x ∈ ls
    · simp [hx]
    · by_cases he : x = l
      · subst he
        simp [hx, fremove]
      · simp [hx, he, fremove]

/-! ## C1: lane assignment in `InstallWithGoal` -/

theorem joinLanesLoop_allSnaps (opts : Options)
    (h : opts.flags.transaction = Transaction.allSnaps) :
    ∀ (n : Nat) (st : StState),
      joinLanesLoop opts n st = (st, List.replicate n opts.flags.lane) := by
  intro n
  induction n with
  | zero => intro st; rfl
  | succ n ih =>
    intro st
    simp [joinLanesLoop, generateLane, h, ih, List.replicate_succ]

theorem joinLanesLoop_unset (opts : Options)
    (h : opts.flags.transaction = Transaction.unset) :
    ∀ (n : Nat) (st : StState),
      joinLanesLoop opts n st = (st, List.replicate n 0) := by
  intro n
  induction n with
  | zero => intro st; rfl
  | succ n ih =>
    intro st
    simp [joinLanesLoop, generateLane, h, ih, List.replicate_succ]

theorem joinLanesLoop_perSnap (opts : Options)
    (h : opts.flags.transaction = Transaction.perSnap) :
    ∀ (n : Nat) (st : StState),
      joinLanesLoop opts n st =
        (⟨st.lastLaneID + n⟩, List.range' (st.lastLaneID + 1) n) := by
  intro n
  induction n with
  | zero => intro st; rfl
  | succ n ih =>
    intro st
    rw [joinLanesLoop]
    simp only [generateLane, h, newLane]
    rw [ih ⟨st.lastLaneID + 1⟩]
    rw [List.range'_succ]
    simp only [Prod.mk.injEq, StState.mk.injEq]
    exact ⟨by omega, by simp⟩

theorem installWithGoalLanes_of_ok {opts : Options} {st : StState}
    {o' : Options} {st' : StState} (n : Nat)
    (hSet : setDefaultLane opts st = .ok (o', st')) :
    installWithGoalLanes n opts st = .ok (joinLanesLoop o' n st') := by
  unfold installWithGoalLanes
  rw [hSet]

theorem installWithGoalLanes_of_err {opts : Options} {st : StState}
    {e : InstallError} (n : Nat)
    (hSet : setDefaultLane opts st = .error e) :
    installWithGoalLanes n opts st = .error e := by
  unfold installWithGoalLanes
  rw [hSet]

theorem setDefaultLane_reject {opts : Options} (st : StState)
    (h1 : opts.flags.transaction ≠ Transaction.allSnaps)
    (h2 : opts.flags.lane ≠ 0) :
    setDefaultLane opts st = .error .laneWithoutAllSnaps := by
  simp [setDefaultLane, h1, h2]

theorem setDefaultLane_allSnaps_fresh {opts : Options} (st : StState)
    (h : opts.flags.transaction = Transaction.allSnaps)
    (hl : opts.flags.lane = 0) :
    setDefaultLane opts st =
      .ok (⟨⟨opts.flags.transaction, st.lastLaneID + 1⟩⟩,
        ⟨st.lastLaneID + 1⟩) := by
  simp [setDefaultLane, h, hl, newLane]

theorem setDefaultLane_keep {opts : Options} (st : StState)
    (h1 : opts.flags.transaction = Transaction.allSnaps ∨ opts.flags.lane = 0)
    (h2 : ¬(opts.flags.transaction = Transaction.allSnaps ∧
      opts.flags.lane = 0)) :
    setDefaultLane opts st = .ok (opts, st) := by
  rw [setDefaultLane, if_neg, if_neg h2]
  rcases h1 with h | h <;> simp [h]

/-- C1: for every successful `InstallWithGoal` call, each task set's lane
is determined by the transaction option: a nonzero lane with a
transaction other than "all-snaps" is rejected before any tasks are
created; with "all-snaps" every task set joins one shared nonzero lane
(the supplied one, or a fresh `state.NewLane` allocation if none was
supplied); with "per-snap" each snap's task set joins a freshly
allocated (hence nonzero, pairwise distinct) lane of its own; with no
transaction every task set joins lane 0. -/
theorem c1_installWithGoal_lane_assignment (n : Nat) (opts : Options)
    (st : StState) :
    (opts.flags.transaction ≠ Transaction.allSnaps → opts.flags.lane ≠ 0 →
      installWithGoalLanes n opts st = .error .laneWithoutAllSnaps) ∧
    (opts.flags.transaction = Transaction.allSnaps →
      ∃ st' L, installWithGoalLanes n opts st = .ok (st', List.replicate n L) ∧
        L ≠ 0 ∧
        (opts.flags.lane = 0 → L = st.lastLaneID + 1) ∧
        (opts.flags.lane ≠ 0 → L = opts.flags.lane)) ∧
    (opts.flags.transaction = Transaction.perSnap → opts.flags.lane = 0 →
      installWithGoalLanes n opts st =
        .ok (⟨st.lastLaneID + n⟩, List.range' (st.lastLaneID + 1) n) ∧
      (List.range' (st.lastLaneID + 1) n).Nodup ∧
      ∀ l ∈ List.range' (st.lastLaneID + 1) n, st.lastLaneID < l ∧ l ≠ 0) ∧
    (opts.flags.transaction = Transaction.unset → opts.flags.lane = 0 →
      installWithGoalLanes n opts st = .ok (st, List.replicate n 0)) := by
  refine ⟨?_, ?_, ?_, ?_⟩
  · intro h1 h2
    exact installWithGoalLanes_of_err n (setDefaultLane_reject st h1 h2)
  · intro h
    by_cases hl : opts.flags.lane = 0
    · refine ⟨⟨st.lastLaneID + 1⟩, st.lastLaneID + 1, ?_, by simp, fun _ => rfl,
        fun hc => absurd hl hc⟩
      rw [installWithGoalLanes_of_ok n (setDefaultLane_allSnaps_fresh st h hl)]
      rw [joinLanesLoop_allSnaps ⟨⟨opts.flags.transaction, st.lastLaneID + 1⟩⟩ h n
        ⟨st.lastLaneID + 1⟩]
    · refine ⟨st, opts.flags.lane, ?_, hl, fun hc => absurd hc hl, fun _ => rfl⟩
      rw [installWithGoalLanes_of_ok n
        (setDefaultLane_keep st (Or.inl h) (fun hc => hl hc.2))]
      rw [joinLanesLoop_allSnaps opts h n st]
  · intro h hl
    refine ⟨?_, ?_, ?_⟩
    · rw [installWithGoalLanes_of_ok n
        (setDefaultLane_keep st (Or.inr hl) (fun hc => by rw [h] at hc; cases hc.1))]
      rw [joinLanesLoop_perSnap opts h n st]
    · exact List.nodup_range' _ _
    · intro l hmem
      rw [List.mem_range'_1] at hmem
      omega
  · intro h hl
    rw [installWithGoalLanes_of_ok n
      (setDefaultLane_keep st (Or.inr hl) (fun hc => by rw [h] at hc; cases hc.1))]
    rw [joinLanesLoop_unset opts h n st]

/-- Witness for C1 at a concrete input: two snaps installed with the
"all-snaps" transaction and no caller-supplied lane, starting from
`lastLaneID = 7`, share one fresh nonzero lane. -/
theorem c1_witness :
    ∃ st' L,
      installWithGoalLanes 2 ⟨⟨Transaction.allSnaps, 0⟩⟩ ⟨7⟩ =
        .ok (st', List.replicate 2 L) ∧
      L ≠ 0 ∧
      ((⟨⟨Transaction.allSnaps, 0⟩⟩ : Options).flags.lane = 0 →
        L = (⟨7⟩ : StState).lastLaneID + 1) ∧
      ((⟨⟨Transaction.allSnaps, 0⟩⟩ : Options).flags.lane ≠ 0 →
        L = (⟨⟨Transaction.allSnaps, 0⟩⟩ : Options).flags.lane) :=
  (c1_installWithGoal_lane_assignment 2 ⟨⟨Transaction.allSnaps, 0⟩⟩ ⟨7⟩).2.1 rfl

/-! ## C9: goal construction deduplicates by instance name -/

theorem keepFirstBy_nil {α : Type} (key : α → String) :
    keepFirstBy key [] = [] := by
  rw [keepFirstBy]

theorem keepFirstBy_cons {α : Type} (key : α → String) (x : α) (xs : List α) :
    keepFirstBy key (x :: xs) =
      x :: keepFirstBy key (xs.filter fun y => key y ≠ key x) := by
  rw [keepFirstBy]

theorem storeInstallGoalUnique_eq_keepFirst :
    ∀ (l : List StoreSnap) (seen : List String),
      storeInstallGoalUnique seen l =
        keepFirstBy (fun sn => sn.instanceName)
          (l.filter fun sn => decide (sn.instanceName ∉ seen)) := by
  intro l
  induction l with
  | nil => intro seen; simp [storeInstallGoalUnique, keepFirstBy_nil]
  | cons sn rest ih =>
    intro seen
    by_cases h : sn.instanceName ∈ seen
    · rw [storeInstallGoalUnique, if_pos h, ih seen, List.filter_cons]
      simp [h]
    · rw [storeInstallGoalUnique, if_neg h, ih (sn.instanceName :: seen),
        List.filter_cons]
      rw [if_pos (by simp [h]), keepFirstBy_cons, List.filter_filter]
      congr 2
      apply List.filter_congr
      intro a _
      by_cases h1 : a.instanceName ∈ seen <;>
        by_cases h2 : a.instanceName = sn.instanceName <;> simp [h1, h2]

theorem pathUpdateGoalFiltered_eq_keepFirst :
    ∀ (l : List PathSnap) (seen : List String),
      pathUpdateGoalFiltered seen l =
        keepFirstBy (fun sn => sn.instanceName)
          ((l.map pathSnapWithDefaultName).filter
            fun sn => decide (sn.instanceName ∉ seen)) := by
  intro l
  induction l with
  | nil => intro seen; simp [pathUpdateGoalFiltered, keepFirstBy_nil]
  | cons sn₀ rest ih =>
    intro seen
    by_cases h : (pathSnapWithDefaultName sn₀).instanceName ∈ seen
    · rw [pathUpdateGoalFiltered]
      simp only [if_pos h]
      rw [ih seen, List.map_cons, List.filter_cons]
      simp [h]
    · rw [pathUpdateGoalFiltered]
      simp only [if_neg h]
      rw [ih ((pathSnapWithDefaultName sn₀).instanceName :: seen),
        List.map_cons, List.filter_cons]
      rw [if_pos (by simp [h]), keepFirstBy_cons, List.filter_filter]
      congr 2
      apply List.filter_congr
      intro a _
      by_cases h1 : a.instanceName ∈ seen <;>
        by_cases h2 : a.instanceName = (pathSnapWithDefaultName sn₀).instanceName <;>
        simp [h1, h2]

theorem keepFirstBy_mem_sub {α : Type} (key : α → String) :
    ∀ (n : Nat) (l : List α), l.length ≤ n →
      ∀ y ∈ keepFirstBy key l, y ∈ l := by
  intro n
  induction n with
  | zero =>
    intro l hl y hy
    rw [List.length_eq_zero.mp (Nat.le_zero.mp hl)] at hy ⊢
    rw [keepFirstBy_nil] at hy
    cases hy
  | succ n ih =>
    intro l hl y hy
    match l with
    | [] =>
      rw [keepFirstBy_nil] at hy
      cases hy
    | x :: xs =>
      rw [keepFirstBy_cons] at hy
      rcases List.mem_cons.mp hy with rfl | hy'
      · exact List.mem_cons_self _ _
      · have hlen : (xs.filter fun y => key y ≠ key x).length ≤ n := by
          have := List.length_filter_le (fun y => decide (key y ≠ key x)) xs
          simp only [List.length_cons, Nat.succ_le_succ_iff] at hl
          omega
        have := ih _ hlen y hy'
        exact List.mem_cons_of_mem _ (List.mem_of_mem_filter this)

theorem keepFirstBy_names_nodup {α : Type} (key : α → String) :
    ∀ (n : Nat) (l : List α), l.length ≤ n →
      ((keepFirstBy key l).map key).Nodup := by
  intro n
  induction n with
  | zero =>
    intro l hl
    rw [List.length_eq_zero.mp (Nat.le_zero.mp hl), keepFirstBy_nil]
    exact List.nodup_nil
  | succ n ih =>
    intro l hl
    match l with
    | [] =>
      rw [keepFirstBy_nil]
      exact List.nodup_nil
    | x :: xs =>
      rw [keepFirstBy_cons, List.map_cons]
      have hlen : (xs.filter fun y => key y ≠ key x).length ≤ n := by
        have := List.length_filter_le (fun y => decide (key y ≠ key x)) xs
        simp only [List.length_cons, Nat.succ_le_succ_iff] at hl
        omega
      refine List.Nodup.cons ?_ (ih _ hlen)
      intro hmem
      rcases List.mem_map.mp hmem with ⟨y, hy, hkey⟩
      have hyf := keepFirstBy_mem_sub key n _ hlen y hy
      have := List.of_mem_filter hyf
      simp only [decide_not, Bool.not_eq_true', decide_eq_false_iff_not] at this
      exact this hkey

/-- C9: `StoreInstallGoal` (and likewise `PathUpdateGoal`, after
defaulting missing instance names from `SideInfo.RealName`) keeps
exactly the first occurrence of every instance name, in the order of
first appearances — so the resulting goal carries each instance name at
most once, with the `StoreSnap`/`PathSnap` (and hence the options) of
its first occurrence. -/
theorem c9_goal_dedup_keeps_first (snaps : List StoreSnap)
    (psnaps : List PathSnap) :
    StoreInstallGoal snaps = keepFirstBy (fun sn => sn.instanceName) snaps ∧
    PathUpdateGoal psnaps =
      keepFirstBy (fun sn => sn.instanceName)
        (psnaps.map pathSnapWithDefaultName) ∧
    ((StoreInstallGoal snaps).map fun sn => sn.instanceName).Nodup ∧
    ((PathUpdateGoal psnaps).map fun sn => sn.instanceName).Nodup := by
  have hs : StoreInstallGoal snaps =
      keepFirstBy (fun sn => sn.instanceName) snaps := by
    rw [StoreInstallGoal, storeInstallGoalUnique_eq_keepFirst]
    congr 1
    apply List.filter_eq_self.mpr
    intro a _
    simp
  have hp : PathUpdateGoal psnaps =
      keepFirstBy (fun sn => sn.instanceName)
        (psnaps.map pathSnapWithDefaultName) := by
    rw [PathUpdateGoal, pathUpdateGoalFiltered_eq_keepFirst]
    congr 1
    apply List.filter_eq_self.mpr
    intro a _
    simp
  refine ⟨hs, hp, ?_, ?_⟩
  · rw [hs]
    exact keepFirstBy_names_nodup _ snaps.length snaps le_rfl
  · rw [hp]
    exact keepFirstBy_names_nodup _ (psnaps.map pathSnapWithDefaultName).length
      _ le_rfl

/-! ## C8: already-installed snaps in `storeInstallGoal.toInstall` -/

theorem defaultChannelStable_name (sn : StoreSnap) :
    (defaultChannelStable sn).instanceName = sn.instanceName := by
  unfold defaultChannelStable
  split <;> rfl

theorem validateAndPrune_err_first (env : StoreEnv) :
    ∀ (pre : List StoreSnap) (sn : StoreSnap) (post : List StoreSnap),
      (∀ x ∈ pre ++ sn :: post, env.valid x.instanceName = true) →
      (∀ x ∈ pre ++ sn :: post, (validateRevisionOpts x.revOpts).isSome) →
      (∀ x, (env.resolveChannel x).isSome) →
      (∀ x, (env.initValidationSets x).isSome) →
      (∀ x ∈ pre, env.installed x.instanceName = true →
        x.skipIfPresent = true) →
      env.installed sn.instanceName = true → sn.skipIfPresent = false →
      validateAndPrune env (pre ++ sn :: post) =
        .error (.alreadyInstalled sn.instanceName) := by
  intro pre
  induction pre with
  | nil =>
    intro sn post hvalid hrev _ _ _ hinst hskip
    have hv := hvalid sn (by simp)
    obtain ⟨ro, hro⟩ := Option.isSome_iff_exists.mp (hrev sn (by simp))
    rw [List.nil_append, validateAndPrune, if_neg (by simp [hv]), hro]
    simp [hinst, hskip]
  | cons x pre ih =>
    intro sn post hvalid hrev hrc hiv hpre hinst hskip
    have hv := hvalid x (by simp)
    obtain ⟨ro, hro⟩ := Option.isSome_iff_exists.mp (hrev x (by simp))
    rw [List.cons_append, validateAndPrune, if_neg (by simp [hv]), hro]
    have htail := ih sn post (fun y hy => hvalid y (by simp [hy]))
      (fun y hy => hrev y (by simp [hy])) hrc hiv
      (fun y hy => hpre y (by simp [hy])) hinst hskip
    by_cases hx : env.installed x.instanceName = true
    · have hsk : x.skipIfPresent = true := hpre x (by simp) hx
      simp [hx, hsk, htail]
    · simp only [Bool.not_eq_true] at hx
      obtain ⟨y, hy⟩ := Option.isSome_iff_exists.mp
        (hrc (defaultChannelStable { x with revOpts := ro }))
      obtain ⟨z, hz⟩ := Option.isSome_iff_exists.mp (hiv y)
      simp [hx, hy, hz, htail]

theorem validateAndPrune_all_skip (env : StoreEnv)
    (hnrc : ∀ x y, env.resolveChannel x = some y →
      y.instanceName = x.instanceName)
    (hniv : ∀ x y, env.initValidationSets x = some y →
      y.instanceName = x.instanceName) :
    ∀ (l : List StoreSnap),
      (∀ x ∈ l, env.valid x.instanceName = true) →
      (∀ x ∈ l, (validateRevisionOpts x.revOpts).isSome) →
      (∀ x, (env.resolveChannel x).isSome) →
      (∀ x, (env.initValidationSets x).isSome) →
      (∀ x ∈ l, env.installed x.instanceName = true →
        x.skipIfPresent = true) →
      ∃ pruned, validateAndPrune env l = .ok pruned ∧
        pruned.map (fun sn => sn.instanceName) =
          (l.filter fun sn => !env.installed sn.instanceName).map
            fun sn => sn.instanceName := by
  intro l
  induction l with
  | nil => intro _ _ _ _ _; exact ⟨[], rfl, rfl⟩
  | cons x rest ih =>
    intro hvalid hrev hrc hiv hskip
    obtain ⟨pruned, hok, hnames⟩ := ih (fun y hy => hvalid y (by simp [hy]))
      (fun y hy => hrev y (by simp [hy])) hrc hiv
      (fun y hy => hskip y (by simp [hy]))
    have hv := hvalid x (by simp)
    obtain ⟨ro, hro⟩ := Option.isSome_iff_exists.mp (hrev x (by simp))
    by_cases hx : env.installed x.instanceName = true
    · have hsk : x.skipIfPresent = true := hskip x (by simp) hx
      refine ⟨pruned, ?_, ?_⟩
      · rw [validateAndPrune, if_neg (by simp [hv]), hro]
        simp [hx, hsk, hok]
      · rw [hnames, List.filter_cons, if_neg (by simp [hx])]
    · simp only [Bool.not_eq_true] at hx
      obtain ⟨y, hy⟩ := Option.isSome_iff_exists.mp
        (hrc (defaultChannelStable { x with revOpts := ro }))
      obtain ⟨z, hz⟩ := Option.isSome_iff_exists.mp (hiv y)
      refine ⟨z :: pruned, ?_, ?_⟩
      · rw [validateAndPrune, if_neg (by simp [hv]), hro]
        simp [hx, hy, hz, hok]
      · have hyn : y.instanceName = x.instanceName := by
          rw [hnrc _ y hy, defaultChannelStable_name]
        have hzn : z.instanceName = x.instanceName := by
          rw [hniv y z hz, hyn]
        rw [List.map_cons, hnames, List.filter_cons, if_pos (by simp [hx]),
          List.map_cons, hzn]

/-- C8: for store installs, an already-installed requested snap makes
`storeInstallGoal.toInstall` fail with `AlreadyInstalledError` for that
snap — unless it was marked `SkipIfPresent`, in which case it is
silently dropped and the remaining snaps proceed — and in the error
case the store is never contacted (validation runs before any store
request). -/
theorem c8_toInstall_already_installed (env : StoreEnv)
    (snaps : List StoreSnap)
    (hvalid : ∀ x ∈ snaps, env.valid x.instanceName = true)
    (hrev : ∀ x ∈ snaps, (validateRevisionOpts x.revOpts).isSome)
    (hrc : ∀ x, (env.resolveChannel x).isSome)
    (hiv : ∀ x, (env.initValidationSets x).isSome)
    (hnrc : ∀ x y, env.resolveChannel x = some y →
      y.instanceName = x.instanceName)
    (hniv : ∀ x y, env.initValidationSets x = some y →
      y.instanceName = x.instanceName) :
    (∀ pre sn post, snaps = pre ++ sn :: post →
      (∀ x ∈ pre, env.installed x.instanceName = true →
        x.skipIfPresent = true) →
      env.installed sn.instanceName = true → sn.skipIfPresent = false →
      toInstall env false snaps =
        ⟨.error (.alreadyInstalled sn.instanceName), false⟩) ∧
    ((∀ x ∈ snaps, env.installed x.instanceName = true →
        x.skipIfPresent = true) →
      ∃ pruned, toInstall env false snaps = ⟨.ok pruned, true⟩ ∧
        pruned.map (fun sn => sn.instanceName) =
          (snaps.filter fun sn => !env.installed sn.instanceName).map
            fun sn => sn.instanceName) ∧
    (∀ e, (toInstall env false snaps).result = .error e →
      (toInstall env false snaps).storeContacted = false) := by
  refine ⟨?_, ?_, ?_⟩
  · intro pre sn post hdec hpre hinst hskip
    subst hdec
    have herr := validateAndPrune_err_first env pre sn post hvalid hrev hrc hiv
      hpre hinst hskip
    rw [toInstall, if_neg (by simp), herr]
  · intro hallskip
    obtain ⟨pruned, hok, hnames⟩ := validateAndPrune_all_skip env hnrc hniv
      snaps hvalid hrev hrc hiv hallskip
    refine ⟨pruned, ?_, hnames⟩
    rw [toInstall, if_neg (by simp), hok]
  · intro e he
    rw [toInstall, if_neg (by simp)] at he ⊢
    cases hv : validateAndPrune env snaps with
    | error e' => simp [hv]
    | ok pruned => rw [hv] at he; cases he

/-- Witness for C8 at a concrete input: one requested snap that is
already installed and not marked `SkipIfPresent`; `toInstall` fails with
`AlreadyInstalledError` for it without contacting the store. -/
theorem c8_witness :
    toInstall ⟨fun _ => true, fun _ => true, some, some⟩ false
        [⟨"foo", [], ⟨"", "", Option.none, false⟩, false⟩] =
      ⟨.error (.alreadyInstalled "foo"), false⟩ :=
  (c8_toInstall_already_installed ⟨fun _ => true, fun _ => true, some, some⟩
    [⟨"foo", [], ⟨"", "", Option.none, false⟩, false⟩]
    (fun x _ => rfl) (fun x hx => by rw [List.mem_singleton] at hx; subst hx; rfl)
    (fun _ => rfl) (fun _ => rfl)
    (fun x y h => by cases h; rfl) (fun x y h => by cases h; rfl)).1
    [] ⟨"foo", [], ⟨"", "", Option.none, false⟩, false⟩ [] rfl
    (fun x hx => absurd hx (List.not_mem_nil x)) rfl rfl

/-! ## Reduction lemmas for the modelled link/unlink backend -/

theorem linkSnap_nilUnlocker (i : SnapInfo) (ctx : LinkCtx) (fail : FailPoint)
    (fs : Fs) (h : ctx.hasStateUnlocker = false) :
    linkSnap i ctx fail fs = ⟨some .nilStateUnlocker, fs, 0, 0⟩ := by
  rw [linkSnap]
  simp [h]

theorem linkSnap_unsetRevision (i : SnapInfo) (ctx : LinkCtx)
    (fail : FailPoint) (fs : Fs) (h : ctx.hasStateUnlocker = true)
    (hr : i.rev = Option.none) :
    linkSnap i ctx fail fs = ⟨some .unsetRevision, fs, 0, 0⟩ := by
  rw [linkSnap]
  simp [h, hr]

theorem linkSnap_counts (i : SnapInfo) (ctx : LinkCtx) (fail : FailPoint)
    (fs : Fs) (r : Int) (h : ctx.hasStateUnlocker = true)
    (hr : i.rev = some r) :
    (linkSnap i ctx fail fs).unlockCalls = 1 ∧
    (linkSnap i ctx fail fs).relockCalls = 1 := by
  cases fail <;> (rw [linkSnap]; simp [h, hr])

theorem linkSnap_ok_err (i : SnapInfo) (ctx : LinkCtx) (fs : Fs) (r : Int)
    (h : ctx.hasStateUnlocker = true) (hr : i.rev = some r) :
    (linkSnap i ctx .ok fs).err = Option.none := by
  rw [linkSnap]
  simp [h, hr]

theorem linkSnap_fail_err (i : SnapInfo) (ctx : LinkCtx) (fail : FailPoint)
    (fs : Fs) (r : Int) (h : ctx.hasStateUnlocker = true)
    (hr : i.rev = some r) (hf : fail ≠ .ok) :
    (linkSnap i ctx fail fs).err = some (.ioFailure fail) := by
  cases fail
  · exact absurd rfl hf
  all_goals (rw [linkSnap]; simp [h, hr])

theorem linkSnap_ok_fs_apply (i : SnapInfo) (ctx : LinkCtx) (fs : Fs)
    (r : Int) (x : Loc) (h : ctx.hasStateUnlocker = true)
    (hr : i.rev = some r) :
    (linkSnap i ctx .ok fs).fs x =
      if x = Loc.inhibitInfo i.name then Option.none
      else if x = Loc.inhibitLock i.name then Option.none
      else if x = Loc.mountCur i.name then some (toString r)
      else if x = Loc.dataCur i.name then some (toString r)
      else if x = Loc.dataDir (dataDirPath i r) then some "dir"
      else if x ∈ dbusSesLocs i then some (linkVal i r x)
      else if x ∈ dbusSysLocs i then some (linkVal i r x)
      else if x ∈ sysUnitLocs i ++ userUnitLocs i then some (linkVal i r x)
      else if x ∈ desktopLocs i ++ iconLocs i then some (linkVal i r x)
      else if x ∈ binLocs i then some (linkVal i r x)
      else fs x := by
  rw [linkSnap]
  simp [h, hr, fremove_apply, fwrite_apply, fwriteFn_apply]

theorem cleanupFail_apply (i : SnapInfo) (ctx : LinkCtx) (r : Int)
    (fs₀ fsP : Fs) (x : Loc) :
    cleanupFail i ctx r fs₀ fsP x =
      if (i.isSnapd && !ctx.firstInstall) = false ∧ x ∈ unitLocs i then
        Option.none
      else if x ∈ binLocs i ++ desktopLocs i ++ iconLocs i then Option.none
      else if x ∈ restoreLocs i r then fs₀ x
      else fsP x := by
  rw [cleanupFail]
  by_cases hk : (i.isSnapd && !ctx.firstInstall) = true
  · rw [if_pos hk, fremoveAll_apply, frestore_apply]
    simp [hk]
  · simp only [Bool.not_eq_true] at hk
    rw [if_neg (by simp [hk]), fremoveAll_apply, fremoveAll_apply,
      frestore_apply]
    simp [hk]

theorem fremoveAll_of_absent (fs : Fs) (ls : List Loc)
    (h : ∀ l ∈ ls, fs l = Option.none) : fremoveAll fs ls = fs := by
  funext x
  rw [fremoveAll_apply]
  by_cases hx : x ∈ ls
  · rw [if_pos hx, h x hx]
  · rw [if_neg hx]

theorem fwrite_fwrite_same (fs : Fs) (l : Loc) (v : String) :
    fwrite (fwrite fs l v) l v = fwrite fs l v := by
  funext x
  simp only [fwrite_apply]
  by_cases hx : x = l <;> simp [hx]

theorem unlinkFsChange_apply (i : SnapInfo) (ctx : LinkCtx) (fs : Fs)
    (x : Loc) :
    unlinkFsChange i ctx fs x =
      if x = Loc.dataCur i.name then Option.none
      else if x = Loc.mountCur i.name then Option.none
      else if (i.isSnapd && !ctx.firstInstall) = false ∧ x ∈ unitLocs i then
        Option.none
      else if ctx.skipBinaries = false ∧
          x ∈ binLocs i ++ desktopLocs i ++ iconLocs i then Option.none
      else fs x := by
  by_cases hsb : ctx.skipBinaries = true <;>
    by_cases hk : (i.isSnapd && !ctx.firstInstall) = true <;>
    simp [unlinkFsChange, hsb, hk, fremove_apply, fremoveAll_apply]

theorem unlinkSnap_hintNil (i : SnapInfo) (ctx : LinkCtx) (fs : Fs)
    (h1 : ctx.runInhibitHint ≠ Option.none)
    (h2 : ctx.hasStateUnlocker = false) :
    unlinkSnap i ctx fs = ⟨some .inhibitHintNilUnlocker, fs, 0, 0⟩ := by
  rw [unlinkSnap, if_pos ⟨h1, by simp [h2]⟩]

theorem unlinkSnap_noHint (i : SnapInfo) (ctx : LinkCtx) (fs : Fs)
    (hh : ctx.runInhibitHint = Option.none) :
    unlinkSnap i ctx fs = ⟨Option.none, unlinkFsChange i ctx fs, 0, 0⟩ := by
  rw [unlinkSnap, if_neg (by simp [hh])]
  simp [hh]

theorem unlinkSnap_hint (i : SnapInfo) (ctx : LinkCtx) (fs : Fs)
    (hint : String) (hh : ctx.runInhibitHint = some hint)
    (hu : ctx.hasStateUnlocker = true) :
    unlinkSnap i ctx fs =
      ⟨Option.none,
        fwrite (fwrite (unlinkFsChange i ctx fs) (Loc.inhibitLock i.name) hint)
          (Loc.inhibitInfo i.name) ("previous " ++ toString (i.rev.getD 0)),
        1, 1⟩ := by
  rw [unlinkSnap, if_neg (by simp [hu])]
  simp [hh]

theorem mem_binLocs_shape (i : SnapInfo) (l : Loc) (h : l ∈ binLocs i) :
    ∃ s, l = Loc.bin s := by
  simp only [binLocs, List.mem_map] at h
  obtain ⟨a, _, rfl⟩ := h
  exact ⟨_, rfl⟩

theorem mem_bdi_shape (i : SnapInfo) (l : Loc)
    (h : l ∈ binLocs i ++ desktopLocs i ++ iconLocs i) :
    (∃ s, l = Loc.bin s) ∨ (∃ s, l = Loc.desktopFile s) ∨
    (∃ s, l = Loc.icon s) := by
  rcases List.mem_append.mp h with h' | h'
  · rcases List.mem_append.mp h' with h'' | h''
    · exact Or.inl (mem_binLocs_shape i l h'')
    · simp only [desktopLocs, List.mem_map] at h''
      obtain ⟨a, _, rfl⟩ := h''
      exact Or.inr (Or.inl ⟨_, rfl⟩)
  · simp only [iconLocs, List.mem_map] at h'
    obtain ⟨a, _, rfl⟩ := h'
    exact Or.inr (Or.inr ⟨_, rfl⟩)

theorem mem_unitLocs_shape (i : SnapInfo) (l : Loc) (h : l ∈ unitLocs i) :
    (∃ s, l = Loc.sysUnit s) ∨ (∃ s, l = Loc.userUnit s) ∨
    (∃ s, l = Loc.dbusSys s) ∨ (∃ s, l = Loc.dbusSes s) := by
  rcases List.mem_append.mp h with h' | hses
  rcases List.mem_append.mp h' with h'' | hdsys
  rcases List.mem_append.mp h'' with hsys | huser
  · left
    simp only [sysUnitLocs, List.mem_append, List.mem_map] at hsys
    rcases hsys with ⟨a, _, rfl⟩ | hrest
    · exact ⟨_, rfl⟩
    · by_cases hs : i.isSnapd = true
      · rw [if_pos hs] at hrest
        rcases List.mem_append.mp hrest with h3 | h3
        · obtain ⟨a, _, rfl⟩ := List.mem_map.mp h3
          exact ⟨_, rfl⟩
        · rw [List.mem_singleton.mp h3]
          exact ⟨_, rfl⟩
      · rw [if_neg hs] at hrest
        cases hrest
  · right; left
    simp only [userUnitLocs, List.mem_append, List.mem_map] at huser
    rcases huser with ⟨a, _, rfl⟩ | hrest
    · exact ⟨_, rfl⟩
    · by_cases hs : i.isSnapd = true
      · rw [if_pos hs] at hrest
        obtain ⟨a, _, rfl⟩ := List.mem_map.mp hrest
        exact ⟨_, rfl⟩
      · rw [if_neg hs] at hrest
        cases hrest
  · right; right; left
    simp only [dbusSysLocs, List.mem_map] at hdsys
    obtain ⟨a, _, rfl⟩ := hdsys
    exact ⟨_, rfl⟩
  · right; right; right
    simp only [dbusSesLocs, List.mem_append, List.mem_map] at hses
    rcases hses with ⟨a, _, rfl⟩ | hrest
    · exact ⟨_, rfl⟩
    · by_cases hs : i.isSnapd = true
      · rw [if_pos hs] at hrest
        obtain ⟨a, _, rfl⟩ := List.mem_map.mp hrest
        exact ⟨_, rfl⟩
      · rw [if_neg hs] at hrest
        cases hrest

theorem mem_wrapperLocs_shape (i : SnapInfo) (l : Loc)
    (h : l ∈ wrapperLocs i) :
    (∃ s, l = Loc.bin s) ∨ (∃ s, l = Loc.desktopFile s) ∨
    (∃ s, l = Loc.icon s) ∨ (∃ s, l = Loc.sysUnit s) ∨
    (∃ s, l = Loc.userUnit s) ∨ (∃ s, l = Loc.dbusSys s) ∨
    (∃ s, l = Loc.dbusSes s) := by
  rcases List.mem_append.mp h with h' | hunit
  · rcases mem_bdi_shape i l h' with h1 | h1 | h1
    · exact Or.inl h1
    · exact Or.inr (Or.inl h1)
    · exact Or.inr (Or.inr (Or.inl h1))
  · rcases mem_unitLocs_shape i l hunit with h1 | h1 | h1 | h1
    · exact Or.inr (Or.inr (Or.inr (Or.inl h1)))
    · exact Or.inr (Or.inr (Or.inr (Or.inr (Or.inl h1))))
    · exact Or.inr (Or.inr (Or.inr (Or.inr (Or.inr (Or.inl h1)))))
    · exact Or.inr (Or.inr (Or.inr (Or.inr (Or.inr (Or.inr h1)))))

theorem notMem_wrapper_parts (i : SnapInfo) (x : Loc)
    (hw : x ∉ wrapperLocs i) :
    x ∉ binLocs i ∧ x ∉ desktopLocs i ++ iconLocs i ∧
    x ∉ sysUnitLocs i ++ userUnitLocs i ∧ x ∉ dbusSysLocs i ∧
    x ∉ dbusSesLocs i := by
  simp only [wrapperLocs, unitLocs, List.mem_append, not_or] at hw
  simp only [List.mem_append, not_or]
  tauto

theorem cleanupFail_of_stage (i : SnapInfo) (ctx : LinkCtx) (r : Int)
    (fs₀ fsP : Fs) (hns : (i.isSnapd && !ctx.firstInstall) = false)
    (hP : ∀ x, x ∉ wrapperLocs i → x ∉ restoreLocs i r → fsP x = fs₀ x) :
    cleanupFail i ctx r fs₀ fsP = fremoveAll fs₀ (wrapperLocs i) := by
  funext x
  rw [cleanupFail_apply, fremoveAll_apply]
  by_cases h1 : x ∈ unitLocs i
  · have hx : x ∈ wrapperLocs i := List.mem_append.mpr (Or.inr h1)
    rw [if_pos ⟨hns, h1⟩, if_pos hx]
  · by_cases h2 : x ∈ binLocs i ++ desktopLocs i ++ iconLocs i
    · have hx : x ∈ wrapperLocs i := List.mem_append.mpr (Or.inl h2)
      rw [if_neg (fun hc => h1 hc.2), if_pos h2, if_pos hx]
    · have hw : x ∉ wrapperLocs i := by
        intro hc
        rcases List.mem_append.mp hc with hc | hc
        exacts [h2 hc, h1 hc]
      by_cases h3 : x ∈ restoreLocs i r
      · rw [if_neg (fun hc => h1 hc.2), if_neg h2, if_pos h3, if_neg hw]
      · rw [if_neg (fun hc => h1 hc.2), if_neg h2, if_neg h3, if_neg hw]
        exact hP x hw h3

theorem linkSnap_fail_fs (i : SnapInfo) (ctx : LinkCtx) (fail : FailPoint)
    (fs : Fs) (r : Int) (h : ctx.hasStateUnlocker = true)
    (hr : i.rev = some r) (hf : fail ≠ .ok)
    (hns : (i.isSnapd && !ctx.firstInstall) = false) :
    (linkSnap i ctx fail fs).fs = fremoveAll fs (wrapperLocs i) := by
  have hP : ∀ x, x ∉ wrapperLocs i → x ∉ restoreLocs i r →
      ∀ v,
        fwrite
          (fwrite
            (fwriteFn
              (fwriteFn
                (fwriteFn
                  (fwriteFn (fwriteFn fs v (binLocs i)) v
                    (desktopLocs i ++ iconLocs i))
                  v (sysUnitLocs i ++ userUnitLocs i))
                v (dbusSysLocs i))
              v (dbusSesLocs i))
            (Loc.dataDir (dataDirPath i r)) "dir")
          (Loc.dataCur i.name) (toString r) x = fs x := by
    intro x hw hres v
    obtain ⟨hb, hdi, hsu, hds, hss⟩ := notMem_wrapper_parts i x hw
    simp only [restoreLocs, List.mem_cons, List.not_mem_nil, or_false,
      not_or] at hres
    obtain ⟨hm, hdc, hdd⟩ := hres
    rw [fwrite_apply, if_neg hdc, fwrite_apply, if_neg hdd, fwriteFn_apply,
      if_neg hss, fwriteFn_apply, if_neg hds, fwriteFn_apply, if_neg hsu,
      fwriteFn_apply, if_neg hdi, fwriteFn_apply, if_neg hb]
  cases fail
  case ok => exact absurd rfl hf
  case atBins =>
    rw [linkSnap]
    simp [h, hr]
    exact cleanupFail_of_stage i ctx r fs _ hns (fun x hw hres => rfl)
  case atDesktop =>
    rw [linkSnap]
    simp [h, hr]
    exact cleanupFail_of_stage i ctx r fs _ hns (fun x hw hres => by
      obtain ⟨hb, _, _, _, _⟩ := notMem_wrapper_parts i x hw
      rw [fwriteFn_apply, if_neg hb])
  case atServices =>
    rw [linkSnap]
    simp [h, hr]
    exact cleanupFail_of_stage i ctx r fs _ hns (fun x hw hres => by
      obtain ⟨hb, hdi, _, _, _⟩ := notMem_wrapper_parts i x hw
      rw [fwriteFn_apply, if_neg hdi, fwriteFn_apply, if_neg hb])
  case atDbusSys =>
    rw [linkSnap]
    simp [h, hr]
    exact cleanupFail_of_stage i ctx r fs _ hns (fun x hw hres => by
      obtain ⟨hb, hdi, hsu, _, _⟩ := notMem_wrapper_parts i x hw
      rw [fwriteFn_apply, if_neg hsu, fwriteFn_apply, if_neg hdi,
        fwriteFn_apply, if_neg hb])
  case atDbusSes =>
    rw [linkSnap]
    simp [h, hr]
    exact cleanupFail_of_stage i ctx r fs _ hns (fun x hw hres => by
      obtain ⟨hb, hdi, hsu, hds, _⟩ := notMem_wrapper_parts i x hw
      rw [fwriteFn_apply, if_neg hds, fwriteFn_apply, if_neg hsu,
        fwriteFn_apply, if_neg hdi, fwriteFn_apply, if_neg hb])
  case atSystemctl =>
    rw [linkSnap]
    simp [h, hr]
    exact cleanupFail_of_stage i ctx r fs _ hns (fun x hw hres => by
      obtain ⟨hb, hdi, hsu, hds, hss⟩ := notMem_wrapper_parts i x hw
      rw [fwriteFn_apply, if_neg hss, fwriteFn_apply, if_neg hds,
        fwriteFn_apply, if_neg hsu, fwriteFn_apply, if_neg hdi,
        fwriteFn_apply, if_neg hb])
  case atSymlink =>
    rw [linkSnap]
    simp [h, hr]
    exact cleanupFail_of_stage i ctx r fs _ hns
      (fun x hw hres => hP x hw hres (linkVal i r))

/-! ## C2: the link step's do handler is idempotent -/

/-- C2: running `LinkSnap` twice in sequence from the same starting
state succeeds and produces the same filesystem/service state as
running it once (same wrappers, unit files and `current` symlinks), and
`LinkComponent` run twice leaves the same component symlink as run
once. -/
theorem c2_link_do_idempotent (i : SnapInfo) (ctx : LinkCtx) (fs : Fs)
    (r : Int) (h : ctx.hasStateUnlocker = true) (hr : i.rev = some r) :
    (linkSnap i ctx .ok fs).err = Option.none ∧
    (linkSnap i ctx .ok ((linkSnap i ctx .ok fs).fs)).err = Option.none ∧
    (linkSnap i ctx .ok ((linkSnap i ctx .ok fs).fs)).fs =
      (linkSnap i ctx .ok fs).fs ∧
    (∀ (c : CompPlaceInfo) (fs' : Fs),
      linkComponent c (linkComponent c fs') = linkComponent c fs') := by
  refine ⟨linkSnap_ok_err i ctx fs r h hr, linkSnap_ok_err i ctx _ r h hr,
    ?_, ?_⟩
  · funext x
    rw [linkSnap_ok_fs_apply i ctx ((linkSnap i ctx .ok fs).fs) r x h hr,
        linkSnap_ok_fs_apply i ctx fs r x h hr]
    by_cases h1 : x = Loc.inhibitInfo i.name
    · simp only [if_pos h1]
    simp only [if_neg h1]
    by_cases h2 : x = Loc.inhibitLock i.name
    · simp only [if_pos h2]
    simp only [if_neg h2]
    by_cases h3 : x = Loc.mountCur i.name
    · simp only [if_pos h3]
    simp only [if_neg h3]
    by_cases h4 : x = Loc.dataCur i.name
    · simp only [if_pos h4]
    simp only [if_neg h4]
    by_cases h5 : x = Loc.dataDir (dataDirPath i r)
    · simp only [if_pos h5]
    simp only [if_neg h5]
    by_cases h6 : x ∈ dbusSesLocs i
    · simp only [if_pos h6]
    simp only [if_neg h6]
    by_cases h7 : x ∈ dbusSysLocs i
    · simp only [if_pos h7]
    simp only [if_neg h7]
    by_cases h8 : x ∈ sysUnitLocs i ++ userUnitLocs i
    · simp only [if_pos h8]
    simp only [if_neg h8]
    by_cases h9 : x ∈ desktopLocs i ++ iconLocs i
    · simp only [if_pos h9]
    simp only [if_neg h9]
    by_cases h10 : x ∈ binLocs i
    · simp only [if_pos h10]
    simp only [if_neg h10]
  · intro c fs'
    simp only [linkComponent]
    exact fwrite_fwrite_same fs' _ _

/-- Witness for C2 at a concrete input: linking revision 11 of a snap a
second time succeeds and changes nothing. -/
theorem c2_witness :
    (linkSnap ⟨"hello", some 11, [], [], [], false, [], [], []⟩
        ⟨true, true, Option.none, false⟩ .ok emptyFs).err = Option.none ∧
    (linkSnap ⟨"hello", some 11, [], [], [], false, [], [], []⟩
        ⟨true, true, Option.none, false⟩ .ok
        ((linkSnap ⟨"hello", some 11, [], [], [], false, [], [], []⟩
          ⟨true, true, Option.none, false⟩ .ok emptyFs).fs)).err =
      Option.none ∧
    (linkSnap ⟨"hello", some 11, [], [], [], false, [], [], []⟩
        ⟨true, true, Option.none, false⟩ .ok
        ((linkSnap ⟨"hello", some 11, [], [], [], false, [], [], []⟩
          ⟨true, true, Option.none, false⟩ .ok emptyFs).fs)).fs =
      (linkSnap ⟨"hello", some 11, [], [], [], false, [], [], []⟩
        ⟨true, true, Option.none, false⟩ .ok emptyFs).fs ∧
    (∀ (c : CompPlaceInfo) (fs' : Fs),
      linkComponent c (linkComponent c fs') = linkComponent c fs') :=
  c2_link_do_idempotent ⟨"hello", some 11, [], [], [], false, [], [], []⟩
    ⟨true, true, Option.none, false⟩ emptyFs 11 rfl rfl

/-! ## C6: the state unlock protocol at the handler boundary -/

/-- C6: a `LinkSnap` invocation with a nil state unlocker fails
immediately, doing no work and never unlocking; any `LinkSnap`
invocation that passes validation performs exactly one unlock/relock
cycle (the unlocker once and the relock closure it returned once); and
`UnlinkSnap` with a run-inhibit hint set fails immediately when the
state unlocker is nil. -/
theorem c6_state_unlock_protocol (i : SnapInfo) (ctx : LinkCtx)
    (fail : FailPoint) (fs : Fs) (r : Int) :
    (ctx.hasStateUnlocker = false →
      linkSnap i ctx fail fs = ⟨some .nilStateUnlocker, fs, 0, 0⟩) ∧
    (ctx.hasStateUnlocker = true → i.rev = some r →
      (linkSnap i ctx fail fs).unlockCalls = 1 ∧
      (linkSnap i ctx fail fs).relockCalls = 1) ∧
    (ctx.runInhibitHint ≠ Option.none → ctx.hasStateUnlocker = false →
      unlinkSnap i ctx fs = ⟨some .inhibitHintNilUnlocker, fs, 0, 0⟩) :=
  ⟨fun h => linkSnap_nilUnlocker i ctx fail fs h,
    fun h hr => linkSnap_counts i ctx fail fs r h hr,
    fun h1 h2 => unlinkSnap_hintNil i ctx fs h1 h2⟩

/-- Witness for C6 at a concrete input: a successful link performs
exactly one unlock/relock cycle. -/
theorem c6_witness :
    (linkSnap ⟨"hello", some 11, [], [], [], false, [], [], []⟩
        ⟨true, true, Option.none, false⟩ .ok emptyFs).unlockCalls = 1 ∧
    (linkSnap ⟨"hello", some 11, [], [], [], false, [], [], []⟩
        ⟨true, true, Option.none, false⟩ .ok emptyFs).relockCalls = 1 :=
  (c6_state_unlock_protocol ⟨"hello", some 11, [], [], [], false, [], [], []⟩
    ⟨true, true, Option.none, false⟩ .ok emptyFs 11).2.1 rfl rfl

/-! ## C4: atomicity of the link step on error -/

/-- C4 counterexample: linking the snapd snap when it is not a first
install and failing at the `current` symlink leaves the generated
`snapd.service` unit on disk, so the filesystem is not left as it was
before the call. -/
theorem c4_counterexample :
    (linkSnap ⟨"snapd", some 11, [], [], [], true, ["snapd.service"], [], []⟩
        ⟨true, false, Option.none, false⟩ .atSymlink emptyFs).err =
      some (.ioFailure .atSymlink) ∧
    (linkSnap ⟨"snapd", some 11, [], [], [], true, ["snapd.service"], [], []⟩
        ⟨true, false, Option.none, false⟩ .atSymlink emptyFs).fs
        (Loc.sysUnit "snapd.service") ≠
      emptyFs (Loc.sysUnit "snapd.service") := by
  constructor
  · rfl
  · decide

/-- C4 (amended): whenever `LinkSnap` fails partway — except for a
snapd snap that is not a first install, whose generated unit files are
deliberately left in place — it removes every generated wrapper of the
snap and restores the previous `current` symlinks and data directory,
so the resulting filesystem is the starting one with the snap's
generated entries absent; in particular it equals the starting state
whenever that state held no generated entries for the snap. -/
theorem c4_link_failure_restores_filesystem (i : SnapInfo) (ctx : LinkCtx)
    (fail : FailPoint) (fs : Fs) (r : Int)
    (h : ctx.hasStateUnlocker = true) (hr : i.rev = some r)
    (hf : fail ≠ .ok) (hns : (i.isSnapd && !ctx.firstInstall) = false) :
    (linkSnap i ctx fail fs).err = some (.ioFailure fail) ∧
    (linkSnap i ctx fail fs).fs = fremoveAll fs (wrapperLocs i) ∧
    ((∀ l ∈ wrapperLocs i, fs l = Option.none) →
      (linkSnap i ctx fail fs).fs = fs) := by
  refine ⟨linkSnap_fail_err i ctx fail fs r h hr hf,
    linkSnap_fail_fs i ctx fail fs r h hr hf hns, fun habs => ?_⟩
  rw [linkSnap_fail_fs i ctx fail fs r h hr hf hns]
  exact fremoveAll_of_absent fs _ habs

/-- Witness for C4 (amended) at a concrete input: a failed link of an
ordinary snap starting from an empty filesystem leaves it empty. -/
theorem c4_witness :
    (linkSnap ⟨"hello", some 11, [], [], [], false, [], [], []⟩
        ⟨true, true, Option.none, false⟩ .atBins emptyFs).err =
      some (.ioFailure .atBins) ∧
    (linkSnap ⟨"hello", some 11, [], [], [], false, [], [], []⟩
        ⟨true, true, Option.none, false⟩ .atBins emptyFs).fs =
      fremoveAll emptyFs
        (wrapperLocs ⟨"hello", some 11, [], [], [], false, [], [], []⟩) ∧
    ((∀ l ∈ wrapperLocs ⟨"hello", some 11, [], [], [], false, [], [], []⟩,
        emptyFs l = Option.none) →
      (linkSnap ⟨"hello", some 11, [], [], [], false, [], [], []⟩
        ⟨true, true, Option.none, false⟩ .atBins emptyFs).fs = emptyFs) :=
  c4_link_failure_restores_filesystem
    ⟨"hello", some 11, [], [], [], false, [], [], []⟩
    ⟨true, true, Option.none, false⟩ .atBins emptyFs 11 rfl rfl
    (by decide) rfl

theorem unlinkSnap_fs_noHint (i : SnapInfo) (ctx : LinkCtx) (fs : Fs)
    (hh : ctx.runInhibitHint = Option.none) :
    (unlinkSnap i ctx fs).fs = unlinkFsChange i ctx fs := by
  rw [unlinkSnap_noHint i ctx fs hh]

theorem unlinkSnap_fs_hint (i : SnapInfo) (ctx : LinkCtx) (fs : Fs)
    (hint : String) (hh : ctx.runInhibitHint = some hint)
    (hu : ctx.hasStateUnlocker = true) :
    (unlinkSnap i ctx fs).fs =
      fwrite (fwrite (unlinkFsChange i ctx fs) (Loc.inhibitLock i.name) hint)
        (Loc.inhibitInfo i.name) ("previous " ++ toString (i.rev.getD 0)) := by
  rw [unlinkSnap_hint i ctx fs hint hh hu]

theorem unlinkFsChange_idem (i : SnapInfo) (ctx : LinkCtx) (g : Fs) :
    unlinkFsChange i ctx (unlinkFsChange i ctx g) = unlinkFsChange i ctx g := by
  funext x
  rw [unlinkFsChange_apply i ctx (unlinkFsChange i ctx g) x,
      unlinkFsChange_apply i ctx g x]
  by_cases h1 : x = Loc.dataCur i.name
  · simp only [if_pos h1]
  simp only [if_neg h1]
  by_cases h2 : x = Loc.mountCur i.name
  · simp only [if_pos h2]
  simp only [if_neg h2]
  by_cases h3 : (i.isSnapd && !ctx.firstInstall) = false ∧ x ∈ unitLocs i
  · simp only [if_pos h3]
  simp only [if_neg h3]
  by_cases h4 : ctx.skipBinaries = false ∧
      x ∈ binLocs i ++ desktopLocs i ++ iconLocs i
  · simp only [if_pos h4]
  simp only [if_neg h4]

theorem unlinkHintWrite_idem (i : SnapInfo) (ctx : LinkCtx) (fs : Fs)
    (hint prev : String) :
    fwrite
      (fwrite
        (unlinkFsChange i ctx
          (fwrite (fwrite (unlinkFsChange i ctx fs) (Loc.inhibitLock i.name)
            hint) (Loc.inhibitInfo i.name) prev))
        (Loc.inhibitLock i.name) hint)
      (Loc.inhibitInfo i.name) prev =
    fwrite (fwrite (unlinkFsChange i ctx fs) (Loc.inhibitLock i.name) hint)
      (Loc.inhibitInfo i.name) prev := by
  funext x
  simp only [fwrite_apply, unlinkFsChange_apply]
  by_cases h1 : x = Loc.inhibitInfo i.name
  · simp only [if_pos h1]
  simp only [if_neg h1]
  by_cases h2 : x = Loc.inhibitLock i.name
  · simp only [if_pos h2]
  simp only [if_neg h2]
  by_cases h3 : x = Loc.dataCur i.name
  · simp only [if_pos h3]
  simp only [if_neg h3]
  by_cases h4 : x = Loc.mountCur i.name
  · simp only [if_pos h4]
  simp only [if_neg h4]
  by_cases h5 : (i.isSnapd && !ctx.firstInstall) = false ∧ x ∈ unitLocs i
  · simp only [if_pos h5]
  simp only [if_neg h5]
  by_cases h6 : ctx.skipBinaries = false ∧
      x ∈ binLocs i ++ desktopLocs i ++ iconLocs i
  · simp only [if_pos h6]
  simp only [if_neg h6]

theorem unlinkFsChange_removal_facts (i : SnapInfo) (ctx : LinkCtx)
    (fs : Fs) :
    unlinkFsChange i ctx fs (Loc.mountCur i.name) = Option.none ∧
    unlinkFsChange i ctx fs (Loc.dataCur i.name) = Option.none ∧
    (ctx.skipBinaries = false →
      ∀ l ∈ binLocs i ++ desktopLocs i ++ iconLocs i,
        unlinkFsChange i ctx fs l = Option.none) ∧
    ((i.isSnapd && !ctx.firstInstall) = false →
      ∀ l ∈ unitLocs i, unlinkFsChange i ctx fs l = Option.none) := by
  refine ⟨?_, ?_, ?_, ?_⟩
  · rw [unlinkFsChange_apply, if_neg (by simp), if_pos rfl]
  · rw [unlinkFsChange_apply, if_pos rfl]
  · intro hsb l hl
    have hne1 : l ≠ Loc.dataCur i.name := by
      rcases mem_bdi_shape i l hl with ⟨s, rfl⟩ | ⟨s, rfl⟩ | ⟨s, rfl⟩ <;> simp
    have hne2 : l ≠ Loc.mountCur i.name := by
      rcases mem_bdi_shape i l hl with ⟨s, rfl⟩ | ⟨s, rfl⟩ | ⟨s, rfl⟩ <;> simp
    rw [unlinkFsChange_apply, if_neg hne1, if_neg hne2]
    by_cases hc3 : (i.isSnapd && !ctx.firstInstall) = false ∧ l ∈ unitLocs i
    · rw [if_pos hc3]
    · rw [if_neg hc3, if_pos ⟨hsb, hl⟩]
  · intro hk l hl
    have hne1 : l ≠ Loc.dataCur i.name := by
      rcases mem_unitLocs_shape i l hl with ⟨s, rfl⟩ | ⟨s, rfl⟩ | ⟨s, rfl⟩ |
        ⟨s, rfl⟩ <;> simp
    have hne2 : l ≠ Loc.mountCur i.name := by
      rcases mem_unitLocs_shape i l hl with ⟨s, rfl⟩ | ⟨s, rfl⟩ | ⟨s, rfl⟩ |
        ⟨s, rfl⟩ <;> simp
    rw [unlinkFsChange_apply, if_neg hne1, if_neg hne2, if_pos ⟨hk, hl⟩]

/-! ## C3: the unlink step's undo handler is idempotent -/

/-- C3: running `UnlinkSnap` twice in sequence succeeds both times and
produces the same result as running it once — the second run changes
nothing, performs the same unlock/relock accounting, and afterwards
there are still no generated wrappers, unit files or `current` symlinks
for the snap and the run-inhibition state is that of the first run;
likewise `UnlinkComponent` run twice equals run once. -/
theorem c3_unlink_undo_idempotent (i : SnapInfo) (ctx : LinkCtx) (fs : Fs)
    (hok : ctx.runInhibitHint = Option.none ∨ ctx.hasStateUnlocker = true) :
    (unlinkSnap i ctx fs).err = Option.none ∧
    (unlinkSnap i ctx ((unlinkSnap i ctx fs).fs)).err = Option.none ∧
    (unlinkSnap i ctx ((unlinkSnap i ctx fs).fs)).fs =
      (unlinkSnap i ctx fs).fs ∧
    (unlinkSnap i ctx ((unlinkSnap i ctx fs).fs)).unlockCalls =
      (unlinkSnap i ctx fs).unlockCalls ∧
    (unlinkSnap i ctx ((unlinkSnap i ctx fs).fs)).relockCalls =
      (unlinkSnap i ctx fs).relockCalls ∧
    (unlinkSnap i ctx fs).fs (Loc.mountCur i.name) = Option.none ∧
    (unlinkSnap i ctx fs).fs (Loc.dataCur i.name) = Option.none ∧
    (ctx.skipBinaries = false →
      ∀ l ∈ binLocs i ++ desktopLocs i ++ iconLocs i,
        (unlinkSnap i ctx fs).fs l = Option.none) ∧
    ((i.isSnapd && !ctx.firstInstall) = false →
      ∀ l ∈ unitLocs i, (unlinkSnap i ctx fs).fs l = Option.none) ∧
    (∀ (c : CompPlaceInfo) (fs' : Fs),
      unlinkComponent c (unlinkComponent c fs') = unlinkComponent c fs') := by
  have hcomp : ∀ (c : CompPlaceInfo) (fs' : Fs),
      unlinkComponent c (unlinkComponent c fs') = unlinkComponent c fs' := by
    intro c fs'
    funext x
    simp only [unlinkComponent, fremove_apply]
    by_cases hx : x = Loc.comp (compLinkPath c) <;> simp [hx]
  rcases hhint : ctx.runInhibitHint with _ | hint
  · have e1 := unlinkSnap_noHint i ctx fs hhint
    have f1 := unlinkSnap_fs_noHint i ctx fs hhint
    have e2 := unlinkSnap_noHint i ctx (unlinkFsChange i ctx fs) hhint
    obtain ⟨hm, hd, hbdi, hunit⟩ := unlinkFsChange_removal_facts i ctx fs
    refine ⟨by rw [e1], ?_, ?_, ?_, ?_, ?_, ?_, ?_, ?_, hcomp⟩
    · rw [f1, e2]
    · rw [f1, e2]
      exact unlinkFsChange_idem i ctx fs
    · rw [f1, e2, e1]
    · rw [f1, e2, e1]
    · rw [f1]
      exact hm
    · rw [f1]
      exact hd
    · rw [f1]
      exact hbdi
    · rw [f1]
      exact hunit
  · have hu : ctx.hasStateUnlocker = true := by
      rcases hok with hok | hok
      · rw [hhint] at hok
        cases hok
      · exact hok
    have e1 := unlinkSnap_hint i ctx fs hint hhint hu
    have f1 := unlinkSnap_fs_hint i ctx fs hint hhint hu
    have e2 := unlinkSnap_hint i ctx
      (fwrite (fwrite (unlinkFsChange i ctx fs) (Loc.inhibitLock i.name) hint)
        (Loc.inhibitInfo i.name) ("previous " ++ toString (i.rev.getD 0)))
      hint hhint hu
    obtain ⟨hm, hd, hbdi, hunit⟩ := unlinkFsChange_removal_facts i ctx fs
    have hmn : Loc.mountCur i.name ≠ Loc.inhibitInfo i.name := by simp
    have hmn2 : Loc.mountCur i.name ≠ Loc.inhibitLock i.name := by simp
    refine ⟨by rw [e1], ?_, ?_, ?_, ?_, ?_, ?_, ?_, ?_, hcomp⟩
    · rw [f1, e2]
    · rw [f1, e2]
      exact unlinkHintWrite_idem i ctx fs hint _
    · rw [f1, e2, e1]
    · rw [f1, e2, e1]
    · rw [f1, fwrite_apply, if_neg hmn, fwrite_apply, if_neg hmn2]
      exact hm
    · rw [f1, fwrite_apply, if_neg (by simp), fwrite_apply, if_neg (by simp)]
      exact hd
    · intro hsb l hl
      rcases mem_bdi_shape i l hl with ⟨s, rfl⟩ | ⟨s, rfl⟩ | ⟨s, rfl⟩ <;>
      · rw [f1, fwrite_apply, if_neg (by simp), fwrite_apply,
          if_neg (by simp)]
        exact hbdi hsb _ hl
    · intro hk l hl
      rcases mem_unitLocs_shape i l hl with ⟨s, rfl⟩ | ⟨s, rfl⟩ | ⟨s, rfl⟩ |
        ⟨s, rfl⟩ <;>
      · rw [f1, fwrite_apply, if_neg (by simp), fwrite_apply,
          if_neg (by simp)]
        exact hunit hk _ hl

/-- Witness for C3 at a concrete input: unlinking a snap twice with a
refresh inhibition hint succeeds and the second run changes nothing. -/
theorem c3_witness :
    (unlinkSnap ⟨"hello", some 11, [], [], [], false, [], [], []⟩
        ⟨true, true, some "refresh", false⟩ emptyFs).err = Option.none ∧
    (unlinkSnap ⟨"hello", some 11, [], [], [], false, [], [], []⟩
        ⟨true, true, some "refresh", false⟩
        ((unlinkSnap ⟨"hello", some 11, [], [], [], false, [], [], []⟩
          ⟨true, true, some "refresh", false⟩ emptyFs).fs)).err =
      Option.none ∧
    (unlinkSnap ⟨"hello", some 11, [], [], [], false, [], [], []⟩
        ⟨true, true, some "refresh", false⟩
        ((unlinkSnap ⟨"hello", some 11, [], [], [], false, [], [], []⟩
          ⟨true, true, some "refresh", false⟩ emptyFs).fs)).fs =
      (unlinkSnap ⟨"hello", some 11, [], [], [], false, [], [], []⟩
        ⟨true, true, some "refresh", false⟩ emptyFs).fs :=
  ⟨(c3_unlink_undo_idempotent ⟨"hello", some 11, [], [], [], false, [], [], []⟩
      ⟨true, true, some "refresh", false⟩ emptyFs (Or.inr rfl)).1,
   (c3_unlink_undo_idempotent ⟨"hello", some 11, [], [], [], false, [], [], []⟩
      ⟨true, true, some "refresh", false⟩ emptyFs (Or.inr rfl)).2.1,
   (c3_unlink_undo_idempotent ⟨"hello", some 11, [], [], [], false, [], [], []⟩
      ⟨true, true, some "refresh", false⟩ emptyFs (Or.inr rfl)).2.2.1⟩

theorem unlinkSnap_err_ok (i : SnapInfo) (ctx : LinkCtx) (fs : Fs)
    (hok : ctx.runInhibitHint = Option.none ∨ ctx.hasStateUnlocker = true) :
    (unlinkSnap i ctx fs).err = Option.none := by
  rcases hhint : ctx.runInhibitHint with _ | hint
  · rw [unlinkSnap_noHint i ctx fs hhint]
  · have hu : ctx.hasStateUnlocker = true := by
      rcases hok with hok | hok
      · rw [hhint] at hok
        cases hok
      · exact hok
    rw [unlinkSnap_hint i ctx fs hint hhint hu]

theorem unlinkSnap_fs_outside_inhibit (i : SnapInfo) (ctx : LinkCtx)
    (fs : Fs)
    (hok : ctx.runInhibitHint = Option.none ∨ ctx.hasStateUnlocker = true)
    (x : Loc) (h1 : x ≠ Loc.inhibitLock i.name)
    (h2 : x ≠ Loc.inhibitInfo i.name) :
    (unlinkSnap i ctx fs).fs x = unlinkFsChange i ctx fs x := by
  rcases hhint : ctx.runInhibitHint with _ | hint
  · rw [unlinkSnap_fs_noHint i ctx fs hhint]
  · have hu : ctx.hasStateUnlocker = true := by
      rcases hok with hok | hok
      · rw [hhint] at hok
        cases hok
      · exact hok
    rw [unlinkSnap_fs_hint i ctx fs hint hhint hu, fwrite_apply, if_neg h2,
      fwrite_apply, if_neg h1]

/-! ## C7: undo when do never completed is a no-op -/

/-- C7: running `UnlinkSnap` for a snap whose link step never ran
leaves all pre-existing filesystem content unchanged (only the
run-inhibition files may be written): for a non-first-install snapd
snap every pre-existing unit file is left intact byte for byte, and in
general, when the filesystem holds none of the snap's generated entries
and no `current` symlinks for it, every location other than the snap's
run-inhibition files is unchanged; the call succeeds. -/
theorem c7_unlink_never_linked_noop (i : SnapInfo) (ctx : LinkCtx) (fs : Fs)
    (hok : ctx.runInhibitHint = Option.none ∨ ctx.hasStateUnlocker = true) :
    (unlinkSnap i ctx fs).err = Option.none ∧
    (i.isSnapd = true → ctx.firstInstall = false →
      (∀ k, (unlinkSnap i ctx fs).fs (Loc.sysUnit k) = fs (Loc.sysUnit k)) ∧
      (∀ k, (unlinkSnap i ctx fs).fs (Loc.userUnit k) = fs (Loc.userUnit k)) ∧
      (∀ k, (unlinkSnap i ctx fs).fs (Loc.dbusSys k) = fs (Loc.dbusSys k)) ∧
      (∀ k, (unlinkSnap i ctx fs).fs (Loc.dbusSes k) = fs (Loc.dbusSes k))) ∧
    ((∀ l ∈ wrapperLocs i, fs l = Option.none) →
      fs (Loc.mountCur i.name) = Option.none →
      fs (Loc.dataCur i.name) = Option.none →
      ∀ x, x ≠ Loc.inhibitLock i.name → x ≠ Loc.inhibitInfo i.name →
        (unlinkSnap i ctx fs).fs x = fs x) := by
  refine ⟨unlinkSnap_err_ok i ctx fs hok, ?_, ?_⟩
  · intro hsnapd hfi
    have hkeep : (i.isSnapd && !ctx.firstInstall) = true := by
      rw [hsnapd, hfi]
      rfl
    have hstep : ∀ x, x ≠ Loc.dataCur i.name → x ≠ Loc.mountCur i.name →
        (¬(ctx.skipBinaries = false ∧
          x ∈ binLocs i ++ desktopLocs i ++ iconLocs i)) →
        x ≠ Loc.inhibitLock i.name → x ≠ Loc.inhibitInfo i.name →
        (unlinkSnap i ctx fs).fs x = fs x := by
      intro x hd hm hb hi1 hi2
      rw [unlinkSnap_fs_outside_inhibit i ctx fs hok x hi1 hi2,
        unlinkFsChange_apply, if_neg hd, if_neg hm,
        if_neg (fun hc => by rw [hkeep] at hc; cases hc.1), if_neg hb]
    refine ⟨?_, ?_, ?_, ?_⟩ <;>
    · intro k
      refine hstep _ (by simp) (by simp) ?_ (by simp) (by simp)
      intro hc
      rcases mem_bdi_shape i _ hc.2 with ⟨s, hs⟩ | ⟨s, hs⟩ | ⟨s, hs⟩ <;>
        simp at hs
  · intro habs hm hd x hx1 hx2
    rw [unlinkSnap_fs_outside_inhibit i ctx fs hok x hx1 hx2,
      unlinkFsChange_apply]
    by_cases h1 : x = Loc.dataCur i.name
    · rw [if_pos h1, h1, hd]
    rw [if_neg h1]
    by_cases h2 : x = Loc.mountCur i.name
    · rw [if_pos h2, h2, hm]
    rw [if_neg h2]
    by_cases h3 : (i.isSnapd && !ctx.firstInstall) = false ∧ x ∈ unitLocs i
    · rw [if_pos h3]
      exact (habs x (List.mem_append.mpr (Or.inr h3.2))).symm
    rw [if_neg h3]
    by_cases h4 : ctx.skipBinaries = false ∧
        x ∈ binLocs i ++ desktopLocs i ++ iconLocs i
    · rw [if_pos h4]
      exact (habs x (List.mem_append.mpr (Or.inl h4.2))).symm
    rw [if_neg h4]

/-- Witness for C7 at a concrete input: unlinking a non-first-install
snapd snap leaves a pre-existing `snapd.service` unit file intact byte
for byte. -/
theorem c7_witness :
    (unlinkSnap ⟨"snapd", some 11, [], [], [], true, ["snapd.service"], [], []⟩
        ⟨true, false, some "refresh", false⟩
        (fun l => if l = Loc.sysUnit "snapd.service" then some "precious"
          else Option.none)).fs (Loc.sysUnit "snapd.service") =
      (fun l => if l = Loc.sysUnit "snapd.service" then some "precious"
        else Option.none : Fs) (Loc.sysUnit "snapd.service") :=
  ((c7_unlink_never_linked_noop
    ⟨"snapd", some 11, [], [], [], true, ["snapd.service"], [], []⟩
    ⟨true, false, some "refresh", false⟩
    (fun l => if l = Loc.sysUnit "snapd.service" then some "precious"
      else Option.none) (Or.inr rfl)).2.1 rfl rfl).1 "snapd.service"

/-! ## C10: link followed by unlink removes every artifact -/

/-- C10 counterexample: for the snapd snap, a successful `LinkSnap`
followed by `UnlinkSnap` with `FirstInstall = false` leaves the
generated `snapd.service` unit file behind, so the round trip does not
remove every artifact the link created. -/
theorem c10_counterexample :
    (linkSnap ⟨"snapd", some 11, [], [], [], true, ["snapd.service"], [], []⟩
        ⟨true, true, Option.none, false⟩ .ok emptyFs).err = Option.none ∧
    (unlinkSnap ⟨"snapd", some 11, [], [], [], true, ["snapd.service"], [], []⟩
        ⟨true, false, Option.none, false⟩
        ((linkSnap ⟨"snapd", some 11, [], [], [], true, ["snapd.service"], [], []⟩
          ⟨true, true, Option.none, false⟩ .ok emptyFs).fs)).err =
      Option.none ∧
    (unlinkSnap ⟨"snapd", some 11, [], [], [], true, ["snapd.service"], [], []⟩
        ⟨true, false, Option.none, false⟩
        ((linkSnap ⟨"snapd", some 11, [], [], [], true, ["snapd.service"], [], []⟩
          ⟨true, true, Option.none, false⟩ .ok emptyFs).fs)).fs
        (Loc.sysUnit "snapd.service") ≠ Option.none := by
  refine ⟨rfl, rfl, by decide⟩

/-- C10 (amended): for any snap other than a non-first-install snapd
snap, a successful `LinkSnap` followed by `UnlinkSnap` (not skipping
binaries) removes every artifact the link created — binary wrappers,
system/user/D-Bus unit files, desktop files, icons, and the `current`
mount and data symlinks — leaving no generated entries for the snap. -/
theorem c10_link_unlink_round_trip (i : SnapInfo) (ctxL ctxU : LinkCtx)
    (fs : Fs) (r : Int) (hL : ctxL.hasStateUnlocker = true)
    (hr : i.rev = some r)
    (hexc : (i.isSnapd && !ctxU.firstInstall) = false)
    (hsb : ctxU.skipBinaries = false)
    (hU : ctxU.runInhibitHint = Option.none ∨ ctxU.hasStateUnlocker = true) :
    (linkSnap i ctxL .ok fs).err = Option.none ∧
    (unlinkSnap i ctxU ((linkSnap i ctxL .ok fs).fs)).err = Option.none ∧
    (∀ l ∈ wrapperLocs i,
      (unlinkSnap i ctxU ((linkSnap i ctxL .ok fs).fs)).fs l =
        Option.none) ∧
    (unlinkSnap i ctxU ((linkSnap i ctxL .ok fs).fs)).fs
      (Loc.mountCur i.name) = Option.none ∧
    (unlinkSnap i ctxU ((linkSnap i ctxL .ok fs).fs)).fs
      (Loc.dataCur i.name) = Option.none := by
  obtain ⟨hm, hd, hbdi, hunit⟩ :=
    unlinkFsChange_removal_facts i ctxU ((linkSnap i ctxL .ok fs).fs)
  refine ⟨linkSnap_ok_err i ctxL fs r hL hr,
    unlinkSnap_err_ok i ctxU _ hU, ?_, ?_, ?_⟩
  · intro l hl
    have hni1 : l ≠ Loc.inhibitLock i.name := by
      rcases mem_wrapperLocs_shape i l hl with ⟨s, rfl⟩ | ⟨s, rfl⟩ |
        ⟨s, rfl⟩ | ⟨s, rfl⟩ | ⟨s, rfl⟩ | ⟨s, rfl⟩ | ⟨s, rfl⟩ <;> simp
    have hni2 : l ≠ Loc.inhibitInfo i.name := by
      rcases mem_wrapperLocs_shape i l hl with ⟨s, rfl⟩ | ⟨s, rfl⟩ |
        ⟨s, rfl⟩ | ⟨s, rfl⟩ | ⟨s, rfl⟩ | ⟨s, rfl⟩ | ⟨s, rfl⟩ <;> simp
    rw [unlinkSnap_fs_outside_inhibit i ctxU _ hU l hni1 hni2]
    rcases List.mem_append.mp hl with hl' | hl'
    · exact hbdi hsb l hl'
    · exact hunit hexc l hl'
  · rw [unlinkSnap_fs_outside_inhibit i ctxU _ hU _ (by simp) (by simp)]
    exact hm
  · rw [unlinkSnap_fs_outside_inhibit i ctxU _ hU _ (by simp) (by simp)]
    exact hd

/-- Witness for C10 (amended) at a concrete input: linking then
unlinking an ordinary snap with one app removes its binary wrapper. -/
theorem c10_witness :
    (linkSnap ⟨"hello", some 11, [⟨"bin", false, false, false, false⟩],
        [], [], false, [], [], []⟩
      ⟨true, true, Option.none, false⟩ .ok emptyFs).err = Option.none ∧
    (unlinkSnap ⟨"hello", some 11, [⟨"bin", false, false, false, false⟩],
        [], [], false, [], [], []⟩
      ⟨true, false, Option.none, false⟩
      ((linkSnap ⟨"hello", some 11, [⟨"bin", false, false, false, false⟩],
          [], [], false, [], [], []⟩
        ⟨true, true, Option.none, false⟩ .ok emptyFs).fs)).err =
      Option.none ∧
    (∀ l ∈ wrapperLocs ⟨"hello", some 11,
        [⟨"bin", false, false, false, false⟩], [], [], false, [], [], []⟩,
      (unlinkSnap ⟨"hello", some 11, [⟨"bin", false, false, false, false⟩],
          [], [], false, [], [], []⟩
        ⟨true, false, Option.none, false⟩
        ((linkSnap ⟨"hello", some 11, [⟨"bin", false, false, false, false⟩],
            [], [], false, [], [], []⟩
          ⟨true, true, Option.none, false⟩ .ok emptyFs).fs)).fs l =
        Option.none) ∧
    (unlinkSnap ⟨"hello", some 11, [⟨"bin", false, false, false, false⟩],
        [], [], false, [], [], []⟩
      ⟨true, false, Option.none, false⟩
      ((linkSnap ⟨"hello", some 11, [⟨"bin", false, false, false, false⟩],
          [], [], false, [], [], []⟩
        ⟨true, true, Option.none, false⟩ .ok emptyFs).fs)).fs
      (Loc.mountCur "hello") = Option.none ∧
    (unlinkSnap ⟨"hello", some 11, [⟨"bin", false, false, false, false⟩],
        [], [], false, [], [], []⟩
      ⟨true, false, Option.none, false⟩
      ((linkSnap ⟨"hello", some 11, [⟨"bin", false, false, false, false⟩],
          [], [], false, [], [], []⟩
        ⟨true, true, Option.none, false⟩ .ok emptyFs).fs)).fs
      (Loc.dataCur "hello") = Option.none :=
  c10_link_unlink_round_trip
    ⟨"hello", some 11, [⟨"bin", false, false, false, false⟩], [], [], false,
      [], [], []⟩
    ⟨true, true, Option.none, false⟩ ⟨true, false, Option.none, false⟩
    emptyFs 11 rfl rfl rfl rfl (Or.inl rfl)

/-! ## C5: shared-lane fatal errors undo the whole Change -/

/-- C5: for a Change in which every task shares lane 0 (or any one
explicit shared lane), a fatal error in any of its tasks puts every
task of the Change in the undo set. -/
theorem c5_shared_lane_undoes_all (chg : List EngineTask)
    (failing : EngineTask) (L : Nat)
    (hfail : failing ∈ chg)
    (hshared : ∀ t ∈ chg, L ∈ t.effLanes) :
    undoSet chg failing = chg := by
  have hfl : L ∈ failing.effLanes := hshared failing hfail
  unfold undoSet
  rw [List.filter_eq_self]
  intro t ht
  have : L ∈ t.effLanes := hshared t ht
  simp only [List.any_eq_true, decide_eq_true_eq]
  exact ⟨L, this, hfl⟩

/-- Witness for C5 at a concrete input: a two-task Change with no lane
tags (both tasks in lane 0); a failure in the first task undoes both. -/
theorem c5_witness :
    undoSet [⟨1, []⟩, ⟨2, []⟩] ⟨1, []⟩ = [⟨1, []⟩, ⟨2, []⟩] :=
  c5_shared_lane_undoes_all [⟨1, []⟩, ⟨2, []⟩] ⟨1, []⟩ 0 (by decide)
    (by decide)

end SnapdProof
